import Mathlib

/-!
# Verification of the c-volley simulation core

A shallow embedding of `src/blobby_volley.c` (the per-frame physics,
collision, scoring, AI and particle code of the C-Volley game), over exact
rationals in place of C `float`s.  Randomness (`GetRandomValue`), square
roots (`sqrtf`) and trigonometric particle-velocity sampling are modelled
by explicit environment parameters threaded through the tick function; all
other code paths are translated directly from the source.
-/

set_option autoImplicit false

namespace CVolley

/-! ### Constants (from the `#define` block of `blobby_volley.c`) -/

def SCREEN_WIDTH : ℚ := 1024
def SCREEN_HEIGHT : ℚ := 768
def PLAYER_GRAVITY : ℚ := 0.8
def BALL_GRAVITY : ℚ := 0.4
def GROUND_LEVEL : ℚ := SCREEN_HEIGHT - 50
def PLAYER_RADIUS : ℚ := 50
def BALL_RADIUS : ℚ := 35
def PLAYER_MOVE_SPEED : ℚ := 4
def PLAYER_JUMP_FORCE : ℚ := -12
def PLAYER_MAX_VELOCITY_Y : ℚ := 15
def BALL_MAX_SPEED : ℚ := 15
def NET_X : ℚ := 512
def NET_HEIGHT : ℚ := 140
def NET_WIDTH : ℚ := 10
def WIN_SCORE : ℕ := 10
def TRAIL_LENGTH : ℕ := 3
def AI_REACTION_DISTANCE : ℚ := 150
def AI_JUMP_THRESHOLD : ℚ := 60
def AI_POSITION_TOLERANCE : ℚ := 20
def AI_JUMP_COOLDOWN : ℕ := 30
def MAX_PARTICLES : ℕ := 100
def SCORE_DELAY_FRAMES : ℕ := 120

/-! ### Vector / geometry primitives -/

/-- A 2D vector (raylib `Vector2`), components taken as exact rationals. -/
structure V2 where
  x : ℚ
  y : ℚ
deriving DecidableEq, Repr

def vadd (a b : V2) : V2 := ⟨a.x + b.x, a.y + b.y⟩

def vsub (a b : V2) : V2 := ⟨a.x - b.x, a.y - b.y⟩

def smul (c : ℚ) (a : V2) : V2 := ⟨c * a.x, c * a.y⟩

def vdot (a b : V2) : ℚ := a.x * b.x + a.y * b.y

/-- Squared euclidean norm of a vector. -/
def normSq (a : V2) : ℚ := a.x ^ 2 + a.y ^ 2

/-- raylib `CheckCollisionCircles`: the distance between the centers is at
most the sum of the radii (stated on squares, equivalent for nonnegative
radii sums). -/
def checkCollisionCircles (c1 : V2) (r1 : ℚ) (c2 : V2) (r2 : ℚ) : Bool :=
  decide ((c2.x - c1.x) ^ 2 + (c2.y - c1.y) ^ 2 ≤ (r1 + r2) ^ 2)

/-- A raylib `Rectangle` (x, y is the top-left corner). -/
structure Rect where
  x : ℚ
  y : ℚ
  width : ℚ
  height : ℚ
deriving DecidableEq, Repr

/-- raylib `CheckCollisionCircleRec`: circle vs axis-aligned rectangle. -/
def checkCollisionCircleRec (center : V2) (radius : ℚ) (rec : Rect) : Bool :=
  let recCenterX := rec.x + rec.width / 2
  let recCenterY := rec.y + rec.height / 2
  let dx := |center.x - recCenterX|
  let dy := |center.y - recCenterY|
  if dx > rec.width / 2 + radius then false
  else if dy > rec.height / 2 + radius then false
  else if dx ≤ rec.width / 2 then true
  else if dy ≤ rec.height / 2 then true
  else
    decide ((dx - rec.width / 2) ^ 2 + (dy - rec.height / 2) ^ 2 ≤ radius ^ 2)

/-! ### Entity model -/

inductive GameSt where
  | MENU
  | PLAYING
  | GAMEOVER
  | CREDITS
deriving DecidableEq, Repr

inductive Mode where
  | SINGLE_PLAYER
  | TWO_PLAYER
deriving DecidableEq, Repr

inductive Side where
  | LEFT
  | RIGHT
deriving DecidableEq, Repr

/-- raylib `Color` (only carried along; never branched on). -/
structure Color where
  r : ℕ
  g : ℕ
  b : ℕ
  a : ℕ
deriving DecidableEq, Repr

def DARKBROWN : Color := ⟨76, 63, 47, 255⟩

def BLUE : Color := ⟨0, 121, 241, 255⟩

def RED : Color := ⟨230, 41, 55, 255⟩

structure Player where
  position : V2
  velocity : V2
  radius : ℚ
  side : Side
  color : Color
  score : ℕ
  onGround : Bool
deriving DecidableEq, Repr

structure Ball where
  position : V2
  velocity : V2
  radius : ℚ
  trail : List V2
  trailCount : ℕ
  rotation : ℚ
deriving DecidableEq, Repr

structure Particle where
  position : V2
  velocity : V2
  color : Color
  alpha : ℚ
  life : ℚ
  active : Bool
deriving DecidableEq, Repr

/-- The whole mutable session state of the game (the C globals). -/
structure GState where
  gameState : GameSt
  gameMode : Mode
  pause : Bool
  framesCounter : ℕ
  player1 : Player
  player2 : Player
  ball : Ball
  particles : List Particle
  aiJumpCooldown : ℕ
  servingSide : Side
  scoreDelayTimer : ℕ
  menuSelection : ℤ
  creditsScroll : ℚ
  shouldExitGame : Bool
  matchTimer : ℕ
deriving DecidableEq, Repr

/-- One tick's worth of discrete input state (raylib key polling). -/
structure Input where
  keyA : Bool
  keyD : Bool
  keyW : Bool
  keyLeft : Bool
  keyRight : Bool
  keyUp : Bool
  keyDown : Bool
  keyEnter : Bool
  keyEsc : Bool
  keyP : Bool
deriving DecidableEq, Repr

/-- Environment for one tick: the results of the square-root calls
(`sqrtf`, modelled as an oracle applied to the radicand), the AI's
`GetRandomValue(0, 100)` roll, and the randomized velocity each spawned
particle receives (the code draws an angle in a cone and a speed in
`[2, 6]`; the resulting `(cos·s, sin·s)` pair is what the stream gives). -/
structure Env where
  sqrtQ : ℚ → ℚ
  aiRoll : ℤ
  pVel : ℕ → V2

/-! ### Helper functions (`ResetBall`, controls, AI, trail, particles) -/

/-- `ResetBall`: reposition to the serving side's spawn point, zero
velocity, trail count and rotation (the trail array contents are not
cleared by the source, only the count). -/
def resetBall (servingSide : Side) (b : Ball) : Ball :=
  let pos : V2 :=
    if servingSide = Side.LEFT then ⟨SCREEN_WIDTH / 4, 100⟩
    else ⟨SCREEN_WIDTH * 3 / 4, 100⟩
  { b with position := pos, velocity := ⟨0, 0⟩, trailCount := 0, rotation := 0 }

/-- Player 1 part of `UpdatePlayerControls`: A/D move, W jump, then the
two side-containment clamps. -/
def movePlayer1 (inp : Input) (p : Player) : Player :=
  let p :=
    if inp.keyA then
      { p with position := ⟨p.position.x - PLAYER_MOVE_SPEED, p.position.y⟩,
               velocity := ⟨-PLAYER_MOVE_SPEED, p.velocity.y⟩ }
    else if inp.keyD then
      { p with position := ⟨p.position.x + PLAYER_MOVE_SPEED, p.position.y⟩,
               velocity := ⟨PLAYER_MOVE_SPEED, p.velocity.y⟩ }
    else { p with velocity := ⟨0, p.velocity.y⟩ }
  let p :=
    if inp.keyW && p.onGround then
      { p with velocity := ⟨p.velocity.x, PLAYER_JUMP_FORCE⟩, onGround := false }
    else p
  let p :=
    if p.position.x - p.radius < 0 then { p with position := ⟨p.radius, p.position.y⟩ }
    else p
  if p.position.x + p.radius > NET_X - NET_WIDTH / 2 then
    { p with position := ⟨NET_X - NET_WIDTH / 2 - p.radius, p.position.y⟩ }
  else p

/-- Player 2 part of `UpdatePlayerControls` (two-player mode only):
LEFT/RIGHT move, UP jump, then the two side-containment clamps. -/
def movePlayer2 (inp : Input) (p : Player) : Player :=
  let p :=
    if inp.keyLeft then
      { p with position := ⟨p.position.x - PLAYER_MOVE_SPEED, p.position.y⟩,
               velocity := ⟨-PLAYER_MOVE_SPEED, p.velocity.y⟩ }
    else if inp.keyRight then
      { p with position := ⟨p.position.x + PLAYER_MOVE_SPEED, p.position.y⟩,
               velocity := ⟨PLAYER_MOVE_SPEED, p.velocity.y⟩ }
    else { p with velocity := ⟨0, p.velocity.y⟩ }
  let p :=
    if inp.keyUp && p.onGround then
      { p with velocity := ⟨p.velocity.x, PLAYER_JUMP_FORCE⟩, onGround := false }
    else p
  let p :=
    if p.position.x - p.radius < NET_X + NET_WIDTH / 2 then
      { p with position := ⟨NET_X + NET_WIDTH / 2 + p.radius, p.position.y⟩ }
    else p
  if p.position.x + p.radius > SCREEN_WIDTH then
    { p with position := ⟨SCREEN_WIDTH - p.radius, p.position.y⟩ }
  else p

/-- `UpdateAI`: drives player 2 in single-player mode.  `roll` is the
`GetRandomValue(0, 100)` result.  Returns the updated player and jump
cooldown. -/
def updateAI (roll : ℤ) (ball : Ball) (p0 : Player) (cd0 : ℕ) : Player × ℕ :=
  let cd := if cd0 > 0 then cd0 - 1 else cd0
  let ballComingToward : Prop :=
    (ball.velocity.x > 0 ∧ ball.position.x < NET_X) ∨ ball.position.x ≥ NET_X
  if ¬ ballComingToward then
    let targetX := NET_X + (SCREEN_WIDTH - NET_X) / 2
    let p :=
      if p0.position.x < targetX - AI_POSITION_TOLERANCE then
        { p0 with position := ⟨p0.position.x + PLAYER_MOVE_SPEED * 0.6, p0.position.y⟩ }
      else if p0.position.x > targetX + AI_POSITION_TOLERANCE then
        { p0 with position := ⟨p0.position.x - PLAYER_MOVE_SPEED * 0.6, p0.position.y⟩ }
      else p0
    ({ p with velocity := ⟨0, p.velocity.y⟩ }, cd)
  else
    let distanceX := ball.position.x - p0.position.x
    let p :=
      if distanceX < -AI_POSITION_TOLERANCE then
        { p0 with position := ⟨p0.position.x - PLAYER_MOVE_SPEED * 0.8, p0.position.y⟩,
                  velocity := ⟨-(PLAYER_MOVE_SPEED * 0.8), p0.velocity.y⟩ }
      else if distanceX > AI_POSITION_TOLERANCE then
        { p0 with position := ⟨p0.position.x + PLAYER_MOVE_SPEED * 0.8, p0.position.y⟩,
                  velocity := ⟨PLAYER_MOVE_SPEED * 0.8, p0.velocity.y⟩ }
      else { p0 with velocity := ⟨0, p0.velocity.y⟩ }
    let p :=
      if p.position.x - p.radius < NET_X + NET_WIDTH / 2 then
        { p with position := ⟨NET_X + NET_WIDTH / 2 + p.radius, p.position.y⟩ }
      else p
    let p :=
      if p.position.x + p.radius > SCREEN_WIDTH then
        { p with position := ⟨SCREEN_WIDTH - p.radius, p.position.y⟩ }
      else p
    let distanceY := p.position.y - ball.position.y
    let horizontalDist := |distanceX|
    let shouldJump : Prop :=
      horizontalDist < AI_REACTION_DISTANCE ∧ distanceY > -AI_JUMP_THRESHOLD ∧
        distanceY < 100 ∧ cd = 0 ∧ p.onGround = true
    if shouldJump ∧ roll > 20 then
      ({ p with velocity := ⟨p.velocity.x, PLAYER_JUMP_FORCE * 0.9⟩, onGround := false },
        AI_JUMP_COOLDOWN)
    else (p, cd)

/-- `UpdateBallTrail`: shift the fixed-length ring and push the current
position at the front; saturating count. -/
def updateBallTrail (b : Ball) : Ball :=
  { b with trail := (b.position :: b.trail).take TRAIL_LENGTH,
           trailCount := if b.trailCount < TRAIL_LENGTH then b.trailCount + 1 else b.trailCount }

/-- One particle's step of `UpdateParticles`: gravity, integration,
linear life decay, alpha tracking, deactivation. -/
def updateParticle (p : Particle) : Particle :=
  if p.active then
    let vy := p.velocity.y + 0.3
    let pos : V2 := ⟨p.position.x + p.velocity.x, p.position.y + vy⟩
    let life := p.life - 0.02
    let act : Bool := ¬ (life ≤ 0 ∨ pos.y > GROUND_LEVEL + 20)
    { p with velocity := ⟨p.velocity.x, vy⟩, position := pos, life := life,
             alpha := life, active := act }
  else p

def updateParticles (ps : List Particle) : List Particle := ps.map updateParticle

/-- Inner scan of `SpawnGroundParticles`: claim the first inactive slot
(if any) for a particle spawned at `pos` with velocity `vel`. -/
def activateFirst (pos vel : V2) : List Particle → List Particle
  | [] => []
  | p :: rest =>
    if p.active then p :: activateFirst pos vel rest
    else { position := pos, velocity := vel, color := DARKBROWN, alpha := 1, life := 1,
           active := true } :: rest

/-- Outer loop of `SpawnGroundParticles`, unrolled on the remaining
iteration count; `i` is the loop index feeding the per-particle random
velocity stream. -/
def spawnN (pos : V2) (velStream : ℕ → V2) : ℕ → ℕ → List Particle → List Particle
  | _, 0, ps => ps
  | i, Nat.succ k, ps => spawnN pos velStream (i + 1) k (activateFirst pos (velStream i) ps)

/-- `SpawnGroundParticles`: the loop runs while `i < count && i <
MAX_PARTICLES`, i.e. `min count MAX_PARTICLES` times. -/
def spawnGroundParticles (velStream : ℕ → V2) (pos : V2) (count : ℕ)
    (ps : List Particle) : List Particle :=
  spawnN pos velStream 0 (min count MAX_PARTICLES) ps

/-! ### Player-ball collision response (lines 703–748 / 756–800) -/

/-- The unnormalized contact normal: ball center minus player center. -/
def collisionNormal (p : Player) (b : Ball) : V2 :=
  ⟨b.position.x - p.position.x, b.position.y - p.position.y⟩

/-- Normalization step: divide by the `sqrtf` result when positive
(the zero-length degenerate case leaves the vector unchanged). -/
def normalizeWith (sq : ℚ → ℚ) (v : V2) : V2 :=
  let length := sq (v.x * v.x + v.y * v.y)
  if length > 0 then ⟨v.x / length, v.y / length⟩ else v

/-- Mirror reflection of the ball velocity about the contact normal
(lines 718–720). -/
def reflectVel (v n : V2) : V2 :=
  let dotProduct := v.x * n.x + v.y * n.y
  ⟨v.x - 2 * dotProduct * n.x, v.y - 2 * dotProduct * n.y⟩

/-- Uniform 5% energy loss after reflection. -/
def dampVel (v : V2) : V2 := ⟨v.x * 0.95, v.y * 0.95⟩

/-- Player-velocity impulse transfer (70% horizontal, 50% vertical) plus
the fixed upward boost when the player is mid-jump. -/
def addImpulse (p : Player) (v0 : V2) : V2 :=
  let v : V2 := ⟨v0.x + p.velocity.x * 0.7, v0.y + p.velocity.y * 0.5⟩
  if p.velocity.y < -5 then ⟨v.x, v.y - 3⟩ else v

/-- The ball velocity right before the speed clamp in the player-ball
collision response. -/
def preClampVel (sq : ℚ → ℚ) (p : Player) (b : Ball) : V2 :=
  addImpulse p (dampVel (reflectVel b.velocity (normalizeWith sq (collisionNormal p b))))

/-- Ball speed clamp: rescale to exactly `BALL_MAX_SPEED` when the
`sqrtf` speed exceeds it. -/
def clampSpeed (sq : ℚ → ℚ) (v : V2) : V2 :=
  let speed := sq (v.x * v.x + v.y * v.y)
  if speed > BALL_MAX_SPEED then
    ⟨v.x / speed * BALL_MAX_SPEED, v.y / speed * BALL_MAX_SPEED⟩
  else v

/-- Reposition the ball along the normal at the sum of the radii from the
player center. -/
def pushOut (sq : ℚ → ℚ) (p : Player) (b : Ball) : V2 :=
  let normal := normalizeWith sq (collisionNormal p b)
  ⟨p.position.x + normal.x * (p.radius + b.radius),
   p.position.y + normal.y * (p.radius + b.radius)⟩

/-- Full player-ball collision response applied to the ball. -/
def ballPlayerResponse (sq : ℚ → ℚ) (p : Player) (b : Ball) : Ball :=
  { b with velocity := clampSpeed sq (preClampVel sq p b), position := pushOut sq p b }

/-! ### The PLAYING tick, decomposed in source order -/

def stepTimerParticles (s : GState) : GState :=
  { s with matchTimer := s.matchTimer + 1, particles := updateParticles s.particles }

def stepControls (inp : Input) (s : GState) : GState :=
  { s with player1 := movePlayer1 inp s.player1,
           player2 := if s.gameMode = Mode.TWO_PLAYER then movePlayer2 inp s.player2
                      else s.player2 }

def stepAI (env : Env) (s : GState) : GState :=
  if s.gameMode = Mode.SINGLE_PLAYER then
    let r := updateAI env.aiRoll s.ball s.player2 s.aiJumpCooldown
    { s with player2 := r.1, aiJumpCooldown := r.2 }
  else s

/-- Per-player physics: integrate, gravity, fall-speed clamp, ground
collision (the source interleaves the two players, but each player's
update only reads its own fields). -/
def physPlayer (p0 : Player) : Player :=
  let p := { p0 with position := vadd p0.position p0.velocity }
  let p := { p with velocity := ⟨p.velocity.x, p.velocity.y + PLAYER_GRAVITY⟩ }
  let p :=
    if p.velocity.y > PLAYER_MAX_VELOCITY_Y then
      { p with velocity := ⟨p.velocity.x, PLAYER_MAX_VELOCITY_Y⟩ }
    else p
  if p.position.y + p.radius ≥ GROUND_LEVEL then
    { p with position := ⟨p.position.x, GROUND_LEVEL - p.radius⟩,
             velocity := ⟨p.velocity.x, 0⟩, onGround := true }
  else { p with onGround := false }

def stepPlayerPhysics (s : GState) : GState :=
  { s with player1 := physPlayer s.player1, player2 := physPlayer s.player2 }

/-- Score delay handling (lines 626–634): decrement, and reset the ball
to the server's side when the timer hits zero. -/
def stepDelay (s : GState) : GState :=
  if s.scoreDelayTimer > 0 then
    let t := s.scoreDelayTimer - 1
    if t = 0 then { s with scoreDelayTimer := 0, ball := resetBall s.servingSide s.ball }
    else { s with scoreDelayTimer := t }
  else s

/-- Ball integration: position, gravity, rotation (`sqrtf(vx*vx)` is
`|vx|`), and the every-second-frame trail push. -/
def stepBallIntegrate (s : GState) : GState :=
  let b := s.ball
  let b := { b with position := vadd b.position b.velocity }
  let b := { b with velocity := ⟨b.velocity.x, b.velocity.y + BALL_GRAVITY⟩ }
  let speed := |b.velocity.x|
  let b := { b with rotation := b.rotation + speed / b.radius * 35 }
  let b := if s.framesCounter % 2 = 0 then updateBallTrail b else b
  { s with ball := b }

/-- Left/right wall collisions: clamp inside and invert `vx`
(`BALL_BOUNCE_DAMPING` is 1.0, so the bounce is undamped). -/
def stepWalls (s : GState) : GState :=
  let b := s.ball
  let b :=
    if b.position.x - b.radius ≤ 0 then
      { b with position := ⟨b.radius, b.position.y⟩, velocity := ⟨-b.velocity.x, b.velocity.y⟩ }
    else b
  let b :=
    if b.position.x + b.radius ≥ SCREEN_WIDTH then
      { b with position := ⟨SCREEN_WIDTH - b.radius, b.position.y⟩,
               velocity := ⟨-b.velocity.x, b.velocity.y⟩ }
    else b
  { s with ball := b }

def stepCeiling (s : GState) : GState :=
  let b := s.ball
  if b.position.y - b.radius ≤ 0 then
    let b := { b with position := ⟨b.position.x, b.radius⟩,
                      velocity := ⟨b.velocity.x, -b.velocity.y⟩ }
    { s with ball := b }
  else s

def netRect : Rect :=
  ⟨NET_X - NET_WIDTH / 2, GROUND_LEVEL - NET_HEIGHT, NET_WIDTH, NET_HEIGHT⟩

/-- Ball-net collision: invert `vx`, damp `vy` by 10%, push the ball out
to the nearer side of the net rectangle. -/
def stepNet (s : GState) : GState :=
  let b := s.ball
  if checkCollisionCircleRec b.position b.radius netRect then
    let b := { b with velocity := ⟨-b.velocity.x, b.velocity.y * 0.9⟩ }
    let b :=
      if b.position.x < NET_X then { b with position := ⟨netRect.x - b.radius, b.position.y⟩ }
      else { b with position := ⟨netRect.x + netRect.width + b.radius, b.position.y⟩ }
    { s with ball := b }
  else s

/-- Ball vs player 1 (checked only when the score delay is inactive). -/
def stepCollide1 (env : Env) (s : GState) : GState :=
  if s.scoreDelayTimer = 0 ∧
      checkCollisionCircles s.ball.position s.ball.radius s.player1.position
        s.player1.radius = true then
    { s with ball := ballPlayerResponse env.sqrtQ s.player1 s.ball }
  else s

/-- Ball vs player 2 (checked only when the score delay is inactive). -/
def stepCollide2 (env : Env) (s : GState) : GState :=
  if s.scoreDelayTimer = 0 ∧
      checkCollisionCircles s.ball.position s.ball.radius s.player2.position
        s.player2.radius = true then
    { s with ball := ballPlayerResponse env.sqrtQ s.player2 s.ball }
  else s

/-- Ball ground collision: snap, invert `vy`, spawn 15 particles, and
resolve scoring / win / delay start when the delay is inactive. -/
def stepGround (env : Env) (s0 : GState) : GState :=
  if s0.ball.position.y + s0.ball.radius ≥ GROUND_LEVEL then
    let b := { s0.ball with
                position := ⟨s0.ball.position.x, GROUND_LEVEL - s0.ball.radius⟩,
                velocity := ⟨s0.ball.velocity.x, -s0.ball.velocity.y⟩ }
    let impactPos : V2 := ⟨b.position.x, GROUND_LEVEL⟩
    let s := { s0 with ball := b,
                       particles := spawnGroundParticles env.pVel impactPos 15 s0.particles }
    if s.scoreDelayTimer = 0 then
      let s :=
        if b.position.x < NET_X then
          { s with player2 := { s.player2 with score := s.player2.score + 1 },
                   servingSide := Side.RIGHT }
        else
          { s with player1 := { s.player1 with score := s.player1.score + 1 },
                   servingSide := Side.LEFT }
      if s.player1.score ≥ WIN_SCORE ∨ s.player2.score ≥ WIN_SCORE then
        { s with gameState := GameSt.GAMEOVER }
      else { s with scoreDelayTimer := SCORE_DELAY_FRAMES }
    else s
  else s0

/-- The tick prefix up to (and including) the score-delay handler. -/
def tickToDelay (env : Env) (inp : Input) (s : GState) : GState :=
  stepDelay (stepPlayerPhysics (stepAI env (stepControls inp (stepTimerParticles s))))

/-- The tick prefix up to (but excluding) the ground collision. -/
def tickBeforeGround (env : Env) (inp : Input) (s : GState) : GState :=
  stepCollide2 env (stepCollide1 env (stepNet (stepCeiling (stepWalls
    (stepBallIntegrate (tickToDelay env inp s))))))

/-- One full unpaused PLAYING simulation tick. -/
def playingTick (env : Env) (inp : Input) (s : GState) : GState :=
  stepGround env (tickBeforeGround env inp s)

/-! ### The state machine (`UpdateGame` switch) -/

def menuStep (inp : Input) (s : GState) : GState :=
  let s :=
    if inp.keyUp then
      let m := s.menuSelection - 1
      { s with menuSelection := if m < 0 then 3 else m }
    else s
  let s :=
    if inp.keyDown then
      let m := s.menuSelection + 1
      { s with menuSelection := if m > 3 then 0 else m }
    else s
  if inp.keyEnter then
    if s.menuSelection = 0 ∨ s.menuSelection = 1 then
      let s := { s with
                  gameMode := if s.menuSelection = 0 then Mode.SINGLE_PLAYER else Mode.TWO_PLAYER,
                  gameState := GameSt.PLAYING,
                  player1 := { s.player1 with score := 0 },
                  player2 := { s.player2 with score := 0 },
                  matchTimer := 0 }
      { s with ball := resetBall s.servingSide s.ball }
    else if s.menuSelection = 2 then
      { s with gameState := GameSt.CREDITS, creditsScroll := SCREEN_HEIGHT }
    else if s.menuSelection = 3 then { s with shouldExitGame := true }
    else s
  else s

def playingStep (env : Env) (inp : Input) (s : GState) : GState :=
  let s := if inp.keyP then { s with pause := !s.pause } else s
  if inp.keyEsc then { s with gameState := GameSt.MENU, menuSelection := 0 }
  else if s.pause then s
  else playingTick env inp s

def gameoverStep (inp : Input) (s : GState) : GState :=
  if inp.keyEnter then
    { s with gameState := GameSt.MENU, menuSelection := 0,
             player1 := { s.player1 with score := 0 },
             player2 := { s.player2 with score := 0 },
             matchTimer := 0 }
  else s

def creditsStep (inp : Input) (s : GState) : GState :=
  let sc := s.creditsScroll - 2
  let s := { s with creditsScroll := if sc ≤ -800 then -800 else sc }
  if inp.keyEnter ∨ inp.keyEsc then { s with gameState := GameSt.MENU, menuSelection := 0 }
  else s

/-- One call of `UpdateGame` (one frame): frame counter, then the state
machine switch.  Music-stream control has no effect on core state and is
omitted. -/
def updateGame (env : Env) (inp : Input) (s0 : GState) : GState :=
  let s := { s0 with framesCounter := s0.framesCounter + 1 }
  match s.gameState with
  | GameSt.MENU => menuStep inp s
  | GameSt.PLAYING => playingStep env inp s
  | GameSt.GAMEOVER => gameoverStep inp s
  | GameSt.CREDITS => creditsStep inp s

/-- Iterated ticks: `traceFrom envs inps s n` is the state after `n`
frames, frame `k` consuming `envs k` and `inps k`. -/
def traceFrom (envs : ℕ → Env) (inps : ℕ → Input) (s : GState) : ℕ → GState
  | 0 => s
  | Nat.succ n => updateGame (envs n) (inps n) (traceFrom envs inps s n)

/-! ### Variants used to state suppression and AI claims -/

/-- The tick prefix with both player-ball collision checks removed. -/
def tickBeforeGroundNC (env : Env) (inp : Input) (s : GState) : GState :=
  stepNet (stepCeiling (stepWalls (stepBallIntegrate (tickToDelay env inp s))))

def playingTickNC (env : Env) (inp : Input) (s : GState) : GState :=
  stepGround env (tickBeforeGroundNC env inp s)

def playingStepNC (env : Env) (inp : Input) (s : GState) : GState :=
  let s := if inp.keyP then { s with pause := !s.pause } else s
  if inp.keyEsc then { s with gameState := GameSt.MENU, menuSelection := 0 }
  else if s.pause then s
  else playingTickNC env inp s

/-- `UpdateGame` with the two player-ball collision checks removed. -/
def updateGameNC (env : Env) (inp : Input) (s0 : GState) : GState :=
  let s := { s0 with framesCounter := s0.framesCounter + 1 }
  match s.gameState with
  | GameSt.MENU => menuStep inp s
  | GameSt.PLAYING => playingStepNC env inp s
  | GameSt.GAMEOVER => gameoverStep inp s
  | GameSt.CREDITS => creditsStep inp s

/-- The per-tick effect of a single-player tick on player 2 and the AI
cooldown, for a ball treated as fixed (the AI-controller view of the
tick: `UpdateAI` followed by player physics; controls and ball collision
steps do not touch player 2 in single-player mode). -/
def aiStep (roll : ℤ) (ball : Ball) (p : Player) (cd : ℕ) : Player × ℕ :=
  let r := updateAI roll ball p cd
  (physPlayer r.1, r.2)

/-- `n` iterated AI ticks against a fixed ball. -/
def aiIter (rolls : ℕ → ℤ) (ball : Ball) : ℕ → Player × ℕ → Player × ℕ
  | 0, pc => pc
  | Nat.succ n, pc => aiIter rolls ball n (aiStep (rolls n) ball pc.1 pc.2)

/-! ### Concrete states used by witnesses and counterexamples -/

/-- An inactive particle slot (the zero-initialized C global). -/
def inactiveP : Particle :=
  { position := ⟨0, 0⟩, velocity := ⟨0, 0⟩, color := DARKBROWN, alpha := 0, life := 0,
    active := false }

/-- Player 1 resting at its spawn-like position on the left half. -/
def restP1 : Player :=
  { position := ⟨100, 668⟩, velocity := ⟨0, 0⟩, radius := 50, side := Side.LEFT,
    color := BLUE, score := 0, onGround := true }

/-- Player 2 resting on the right half. -/
def restP2 : Player :=
  { position := ⟨900, 668⟩, velocity := ⟨0, 0⟩, radius := 50, side := Side.RIGHT,
    color := RED, score := 0, onGround := true }

/-- A ball about to touch the ground on the left half. -/
def ballG : Ball :=
  { position := ⟨300, 690⟩, velocity := ⟨0, 0⟩, radius := 35,
    trail := [⟨0, 0⟩, ⟨0, 0⟩, ⟨0, 0⟩], trailCount := 0, rotation := 0 }

/-- A two-player PLAYING base state with scores (0,0) and no delay. -/
def baseS : GState :=
  { gameState := GameSt.PLAYING, gameMode := Mode.TWO_PLAYER, pause := false,
    framesCounter := 0, player1 := restP1, player2 := restP2, ball := ballG,
    particles := [], aiJumpCooldown := 0, servingSide := Side.LEFT, scoreDelayTimer := 0,
    menuSelection := 0, creditsScroll := 0, shouldExitGame := false, matchTimer := 0 }

/-- A degenerate environment (all oracle values zero). -/
def env0 : Env := { sqrtQ := fun _ => 0, aiRoll := 0, pVel := fun _ => ⟨0, 0⟩ }

/-- No key pressed. -/
def inp0 : Input := ⟨false, false, false, false, false, false, false, false, false, false⟩

/-! ### Preservation lemmas for the tick steps -/

theorem movePlayer1_keeps (inp : Input) (p : Player) :
    (movePlayer1 inp p).score = p.score ∧ (movePlayer1 inp p).position.y = p.position.y ∧
      (movePlayer1 inp p).radius = p.radius := by
  unfold movePlayer1
  dsimp only
  repeat' split
  all_goals exact ⟨rfl, rfl, rfl⟩

theorem movePlayer2_keeps (inp : Input) (p : Player) :
    (movePlayer2 inp p).score = p.score ∧ (movePlayer2 inp p).position.y = p.position.y ∧
      (movePlayer2 inp p).radius = p.radius := by
  unfold movePlayer2
  dsimp only
  repeat' split
  all_goals exact ⟨rfl, rfl, rfl⟩

theorem updateAI_keeps (roll : ℤ) (ball : Ball) (p : Player) (cd : ℕ) :
    ((updateAI roll ball p cd).1).score = p.score ∧
      ((updateAI roll ball p cd).1).position.y = p.position.y ∧
      ((updateAI roll ball p cd).1).radius = p.radius := by
  unfold updateAI
  dsimp only
  repeat' split
  all_goals exact ⟨rfl, rfl, rfl⟩

theorem physPlayer_facts (p : Player) :
    (physPlayer p).score = p.score ∧
      (physPlayer p).position.x = p.position.x + p.velocity.x ∧
      (physPlayer p).velocity.x = p.velocity.x ∧
      (physPlayer p).radius = p.radius := by
  unfold physPlayer
  dsimp only
  repeat' split
  all_goals exact ⟨rfl, rfl, rfl, rfl⟩

theorem stepDelay_keeps (s : GState) :
    (stepDelay s).player1 = s.player1 ∧ (stepDelay s).player2 = s.player2 ∧
      (stepDelay s).servingSide = s.servingSide ∧ (stepDelay s).gameState = s.gameState ∧
      (stepDelay s).gameMode = s.gameMode ∧ (stepDelay s).pause = s.pause ∧
      (stepDelay s).framesCounter = s.framesCounter := by
  unfold stepDelay
  dsimp only
  repeat' split
  all_goals exact ⟨rfl, rfl, rfl, rfl, rfl, rfl, rfl⟩

theorem stepDelay_id_of_timer0 (s : GState) (h : s.scoreDelayTimer = 0) :
    stepDelay s = s := by
  unfold stepDelay
  rw [h]
  simp

theorem stepBallIntegrate_keeps (s : GState) :
    (stepBallIntegrate s).player1 = s.player1 ∧ (stepBallIntegrate s).player2 = s.player2 ∧
      (stepBallIntegrate s).scoreDelayTimer = s.scoreDelayTimer ∧
      (stepBallIntegrate s).servingSide = s.servingSide ∧
      (stepBallIntegrate s).gameState = s.gameState ∧
      (stepBallIntegrate s).gameMode = s.gameMode ∧
      (stepBallIntegrate s).pause = s.pause := by
  unfold stepBallIntegrate
  dsimp only
  exact ⟨rfl, rfl, rfl, rfl, rfl, rfl, rfl⟩

theorem stepWalls_keeps (s : GState) :
    (stepWalls s).player1 = s.player1 ∧ (stepWalls s).player2 = s.player2 ∧
      (stepWalls s).scoreDelayTimer = s.scoreDelayTimer ∧
      (stepWalls s).servingSide = s.servingSide ∧
      (stepWalls s).gameState = s.gameState ∧
      (stepWalls s).gameMode = s.gameMode ∧
      (stepWalls s).pause = s.pause := by
  unfold stepWalls
  dsimp only
  exact ⟨rfl, rfl, rfl, rfl, rfl, rfl, rfl⟩

theorem stepCeiling_keeps (s : GState) :
    (stepCeiling s).player1 = s.player1 ∧ (stepCeiling s).player2 = s.player2 ∧
      (stepCeiling s).scoreDelayTimer = s.scoreDelayTimer ∧
      (stepCeiling s).servingSide = s.servingSide ∧
      (stepCeiling s).gameState = s.gameState ∧
      (stepCeiling s).gameMode = s.gameMode ∧
      (stepCeiling s).pause = s.pause := by
  unfold stepCeiling
  dsimp only
  repeat' split
  all_goals exact ⟨rfl, rfl, rfl, rfl, rfl, rfl, rfl⟩

theorem stepNet_keeps (s : GState) :
    (stepNet s).player1 = s.player1 ∧ (stepNet s).player2 = s.player2 ∧
      (stepNet s).scoreDelayTimer = s.scoreDelayTimer ∧
      (stepNet s).servingSide = s.servingSide ∧
      (stepNet s).gameState = s.gameState ∧
      (stepNet s).gameMode = s.gameMode ∧
      (stepNet s).pause = s.pause := by
  unfold stepNet
  dsimp only
  repeat' split
  all_goals exact ⟨rfl, rfl, rfl, rfl, rfl, rfl, rfl⟩

theorem stepCollide1_keeps (env : Env) (s : GState) :
    (stepCollide1 env s).player1 = s.player1 ∧ (stepCollide1 env s).player2 = s.player2 ∧
      (stepCollide1 env s).scoreDelayTimer = s.scoreDelayTimer ∧
      (stepCollide1 env s).servingSide = s.servingSide ∧
      (stepCollide1 env s).gameState = s.gameState ∧
      (stepCollide1 env s).gameMode = s.gameMode ∧
      (stepCollide1 env s).pause = s.pause := by
  unfold stepCollide1
  repeat' split
  all_goals exact ⟨rfl, rfl, rfl, rfl, rfl, rfl, rfl⟩

theorem stepCollide2_keeps (env : Env) (s : GState) :
    (stepCollide2 env s).player1 = s.player1 ∧ (stepCollide2 env s).player2 = s.player2 ∧
      (stepCollide2 env s).scoreDelayTimer = s.scoreDelayTimer ∧
      (stepCollide2 env s).servingSide = s.servingSide ∧
      (stepCollide2 env s).gameState = s.gameState ∧
      (stepCollide2 env s).gameMode = s.gameMode ∧
      (stepCollide2 env s).pause = s.pause := by
  unfold stepCollide2
  repeat' split
  all_goals exact ⟨rfl, rfl, rfl, rfl, rfl, rfl, rfl⟩

theorem stepGround_keeps (env : Env) (s : GState) :
    (stepGround env s).player1.position = s.player1.position ∧
      (stepGround env s).player2.position = s.player2.position ∧
      (stepGround env s).player1.radius = s.player1.radius ∧
      (stepGround env s).player2.radius = s.player2.radius ∧
      (stepGround env s).pause = s.pause ∧
      (stepGround env s).gameMode = s.gameMode := by
  unfold stepGround
  dsimp only
  repeat' split
  all_goals exact ⟨rfl, rfl, rfl, rfl, rfl, rfl⟩


attribute [simp] movePlayer1_keeps movePlayer2_keeps updateAI_keeps physPlayer_facts
attribute [simp] stepDelay_keeps stepBallIntegrate_keeps stepWalls_keeps stepCeiling_keeps
attribute [simp] stepNet_keeps stepCollide1_keeps stepCollide2_keeps stepGround_keeps

@[simp] theorem stepTimerParticles_keeps (s : GState) :
    (stepTimerParticles s).player1 = s.player1 ∧ (stepTimerParticles s).player2 = s.player2 ∧
      (stepTimerParticles s).ball = s.ball ∧
      (stepTimerParticles s).scoreDelayTimer = s.scoreDelayTimer ∧
      (stepTimerParticles s).servingSide = s.servingSide ∧
      (stepTimerParticles s).gameState = s.gameState ∧
      (stepTimerParticles s).gameMode = s.gameMode ∧
      (stepTimerParticles s).pause = s.pause ∧
      (stepTimerParticles s).aiJumpCooldown = s.aiJumpCooldown := by
  exact ⟨rfl, rfl, rfl, rfl, rfl, rfl, rfl, rfl, rfl⟩

@[simp] theorem stepControls_keeps (inp : Input) (s : GState) :
    (stepControls inp s).player1.score = s.player1.score ∧
      (stepControls inp s).player2.score = s.player2.score ∧
      (stepControls inp s).player1.position.y = s.player1.position.y ∧
      (stepControls inp s).player2.position.y = s.player2.position.y ∧
      (stepControls inp s).player1.radius = s.player1.radius ∧
      (stepControls inp s).player2.radius = s.player2.radius ∧
      (stepControls inp s).ball = s.ball ∧
      (stepControls inp s).scoreDelayTimer = s.scoreDelayTimer ∧
      (stepControls inp s).servingSide = s.servingSide ∧
      (stepControls inp s).gameState = s.gameState ∧
      (stepControls inp s).gameMode = s.gameMode ∧
      (stepControls inp s).pause = s.pause := by
  unfold stepControls
  refine ⟨(movePlayer1_keeps inp s.player1).1, ?_, (movePlayer1_keeps inp s.player1).2.1, ?_,
    (movePlayer1_keeps inp s.player1).2.2, ?_, rfl, rfl, rfl, rfl, rfl, rfl⟩ <;> dsimp only <;> split
  · exact (movePlayer2_keeps inp s.player2).1
  · rfl
  · exact (movePlayer2_keeps inp s.player2).2.1
  · rfl
  · exact (movePlayer2_keeps inp s.player2).2.2
  · rfl

@[simp] theorem stepAI_keeps (env : Env) (s : GState) :
    (stepAI env s).player1 = s.player1 ∧ (stepAI env s).ball = s.ball ∧
      (stepAI env s).player2.score = s.player2.score ∧
      (stepAI env s).player2.position.y = s.player2.position.y ∧
      (stepAI env s).player2.radius = s.player2.radius ∧
      (stepAI env s).scoreDelayTimer = s.scoreDelayTimer ∧
      (stepAI env s).servingSide = s.servingSide ∧
      (stepAI env s).gameState = s.gameState ∧
      (stepAI env s).gameMode = s.gameMode ∧
      (stepAI env s).pause = s.pause := by
  unfold stepAI
  split
  · exact ⟨rfl, rfl, (updateAI_keeps _ _ _ _).1, (updateAI_keeps _ _ _ _).2.1,
      (updateAI_keeps _ _ _ _).2.2, rfl, rfl, rfl, rfl, rfl⟩
  · exact ⟨rfl, rfl, rfl, rfl, rfl, rfl, rfl, rfl, rfl, rfl⟩

@[simp] theorem stepPlayerPhysics_keeps (s : GState) :
    (stepPlayerPhysics s).player1.score = s.player1.score ∧
      (stepPlayerPhysics s).player2.score = s.player2.score ∧
      (stepPlayerPhysics s).ball = s.ball ∧
      (stepPlayerPhysics s).scoreDelayTimer = s.scoreDelayTimer ∧
      (stepPlayerPhysics s).servingSide = s.servingSide ∧
      (stepPlayerPhysics s).gameState = s.gameState ∧
      (stepPlayerPhysics s).gameMode = s.gameMode ∧
      (stepPlayerPhysics s).pause = s.pause := by
  exact ⟨(physPlayer_facts _).1, (physPlayer_facts _).1, rfl, rfl, rfl, rfl, rfl, rfl⟩

theorem tickToDelay_facts (env : Env) (inp : Input) (s : GState) :
    (tickToDelay env inp s).player1.score = s.player1.score ∧
      (tickToDelay env inp s).player2.score = s.player2.score ∧
      (tickToDelay env inp s).servingSide = s.servingSide ∧
      (tickToDelay env inp s).gameState = s.gameState ∧
      (tickToDelay env inp s).gameMode = s.gameMode ∧
      (tickToDelay env inp s).pause = s.pause := by
  unfold tickToDelay
  simp

theorem tickBeforeGround_facts (env : Env) (inp : Input) (s : GState) :
    (tickBeforeGround env inp s).player1.score = s.player1.score ∧
      (tickBeforeGround env inp s).player2.score = s.player2.score ∧
      (tickBeforeGround env inp s).servingSide = s.servingSide ∧
      (tickBeforeGround env inp s).gameState = s.gameState ∧
      (tickBeforeGround env inp s).gameMode = s.gameMode ∧
      (tickBeforeGround env inp s).pause = s.pause := by
  unfold tickBeforeGround
  have h := tickToDelay_facts env inp s
  simp [h.1, h.2.1, h.2.2.1, h.2.2.2.1, h.2.2.2.2.1, h.2.2.2.2.2]

theorem tickToDelay_timer0 (env : Env) (inp : Input) (s : GState)
    (h : s.scoreDelayTimer = 0) : (tickToDelay env inp s).scoreDelayTimer = 0 := by
  unfold tickToDelay
  rw [stepDelay_id_of_timer0 _ (by simp [h])]
  simp [h]

theorem tickBeforeGround_timer0 (env : Env) (inp : Input) (s : GState)
    (h : s.scoreDelayTimer = 0) : (tickBeforeGround env inp s).scoreDelayTimer = 0 := by
  unfold tickBeforeGround
  simp [tickToDelay_timer0 env inp s h]


def bumpFrames (s : GState) : GState := { s with framesCounter := s.framesCounter + 1 }

theorem updateGame_playing (env : Env) (inp : Input) (s : GState)
    (hg : s.gameState = GameSt.PLAYING) (hp : s.pause = false)
    (hkP : inp.keyP = false) (hkE : inp.keyEsc = false) :
    updateGame env inp s = playingTick env inp (bumpFrames s) := by
  unfold updateGame playingStep bumpFrames
  simp only [hg, hkP, hkE, hp]
  rfl

theorem updateGame_gameover_facts (env : Env) (inp : Input) (s : GState)
    (hg : s.gameState = GameSt.GAMEOVER) :
    (updateGame env inp s).player1.score ≤ s.player1.score ∧
      (updateGame env inp s).player2.score ≤ s.player2.score := by
  unfold updateGame gameoverStep
  simp only [hg]
  split <;> simp

theorem stepGround_no_contact (env : Env) (s : GState)
    (h : ¬ GROUND_LEVEL ≤ s.ball.position.y + s.ball.radius) : stepGround env s = s := by
  unfold stepGround
  rw [if_neg h]

theorem stepGround_timer_ne (env : Env) (s : GState) (ht : s.scoreDelayTimer ≠ 0) :
    (stepGround env s).player1.score = s.player1.score ∧
      (stepGround env s).player2.score = s.player2.score ∧
      (stepGround env s).servingSide = s.servingSide ∧
      (stepGround env s).gameState = s.gameState ∧
      (stepGround env s).scoreDelayTimer = s.scoreDelayTimer := by
  unfold stepGround
  dsimp only
  split_ifs with h1
  · exact ⟨rfl, rfl, rfl, rfl, rfl⟩
  · exact ⟨rfl, rfl, rfl, rfl, rfl⟩

theorem stepGround_score_left (env : Env) (s : GState)
    (hy : GROUND_LEVEL ≤ s.ball.position.y + s.ball.radius)
    (ht : s.scoreDelayTimer = 0) (hx : s.ball.position.x < NET_X) :
    (stepGround env s).player2.score = s.player2.score + 1 ∧
      (stepGround env s).player1.score = s.player1.score ∧
      (stepGround env s).servingSide = Side.RIGHT ∧
      (s.player1.score < WIN_SCORE → s.player2.score + 1 < WIN_SCORE →
        (stepGround env s).gameState = s.gameState ∧
          (stepGround env s).scoreDelayTimer = SCORE_DELAY_FRAMES) ∧
      (s.player1.score ≥ WIN_SCORE ∨ s.player2.score + 1 ≥ WIN_SCORE →
        (stepGround env s).gameState = GameSt.GAMEOVER) := by
  have hy2 : s.ball.position.y + s.ball.radius ≥ GROUND_LEVEL := hy
  unfold stepGround
  dsimp only
  split_ifs with hw
  · exact ⟨rfl, rfl, rfl, fun ha hb => absurd
      (show s.player1.score ≥ WIN_SCORE ∨ s.player2.score + 1 ≥ WIN_SCORE from hw)
      (by omega), fun _ => rfl⟩
  · exact ⟨rfl, rfl, rfl, fun _ _ => ⟨rfl, rfl⟩, fun h => absurd h hw⟩

theorem stepGround_score_right (env : Env) (s : GState)
    (hy : GROUND_LEVEL ≤ s.ball.position.y + s.ball.radius)
    (ht : s.scoreDelayTimer = 0) (hx : ¬ s.ball.position.x < NET_X) :
    (stepGround env s).player1.score = s.player1.score + 1 ∧
      (stepGround env s).player2.score = s.player2.score ∧
      (stepGround env s).servingSide = Side.LEFT ∧
      (s.player2.score < WIN_SCORE → s.player1.score + 1 < WIN_SCORE →
        (stepGround env s).gameState = s.gameState ∧
          (stepGround env s).scoreDelayTimer = SCORE_DELAY_FRAMES) ∧
      (s.player1.score + 1 ≥ WIN_SCORE ∨ s.player2.score ≥ WIN_SCORE →
        (stepGround env s).gameState = GameSt.GAMEOVER) := by
  have hy2 : s.ball.position.y + s.ball.radius ≥ GROUND_LEVEL := hy
  unfold stepGround
  dsimp only
  split_ifs with hw
  · exact ⟨rfl, rfl, rfl, fun ha hb => absurd
      (show s.player1.score + 1 ≥ WIN_SCORE ∨ s.player2.score ≥ WIN_SCORE from hw)
      (by omega), fun _ => rfl⟩
  · exact ⟨rfl, rfl, rfl, fun _ _ => ⟨rfl, rfl⟩, fun h => absurd h hw⟩

theorem stepGround_win (env : Env) (s : GState)
    (hs1 : s.player1.score < WIN_SCORE) (hs2 : s.player2.score < WIN_SCORE) :
    (stepGround env s).player1.score ≤ WIN_SCORE ∧
      (stepGround env s).player2.score ≤ WIN_SCORE ∧
      ((stepGround env s).player1.score ≥ WIN_SCORE ∨
          (stepGround env s).player2.score ≥ WIN_SCORE →
        (stepGround env s).gameState = GameSt.GAMEOVER) := by
  unfold stepGround
  dsimp only
  split_ifs with hc ht hx hw hw
  · exact ⟨show s.player1.score ≤ WIN_SCORE by omega,
      show s.player2.score + 1 ≤ WIN_SCORE by omega, fun _ => rfl⟩
  · exact ⟨show s.player1.score ≤ WIN_SCORE by omega,
      show s.player2.score + 1 ≤ WIN_SCORE by omega, fun h => absurd h hw⟩
  · exact ⟨show s.player1.score + 1 ≤ WIN_SCORE by omega,
      show s.player2.score ≤ WIN_SCORE by omega, fun _ => rfl⟩
  · exact ⟨show s.player1.score + 1 ≤ WIN_SCORE by omega,
      show s.player2.score ≤ WIN_SCORE by omega, fun h => absurd h hw⟩
  · exact ⟨show s.player1.score ≤ WIN_SCORE by omega,
      show s.player2.score ≤ WIN_SCORE by omega, fun h => absurd
      (show s.player1.score ≥ WIN_SCORE ∨ s.player2.score ≥ WIN_SCORE from h) (by omega)⟩
  · exact ⟨show s.player1.score ≤ WIN_SCORE by omega,
      show s.player2.score ≤ WIN_SCORE by omega, fun h => absurd
      (show s.player1.score ≥ WIN_SCORE ∨ s.player2.score ≥ WIN_SCORE from h) (by omega)⟩

/-! ### Enum rewrite helpers (used by concrete evaluations) -/

theorem mode_ts : (Mode.TWO_PLAYER = Mode.SINGLE_PLAYER) = False := by simp

theorem mode_st : (Mode.SINGLE_PLAYER = Mode.TWO_PLAYER) = False := by simp

theorem side_rl : (Side.RIGHT = Side.LEFT) = False := by simp

theorem side_lr : (Side.LEFT = Side.RIGHT) = False := by simp

/-! ### Claim C2 -/

/-- C2: in an unpaused PLAYING tick with the post-score delay inactive,
when the ball's bottom edge reaches the ground line, a landing left of the
net centerline increments the right player's score by exactly 1 and makes
RIGHT the serving side; a landing right of the centerline increments the
left player's score by exactly 1 and makes LEFT the serving side; the
other player's score is unchanged in both cases. -/
theorem c2_ground_scoring (env : Env) (inp : Input) (s : GState)
    (hg : s.gameState = GameSt.PLAYING) (hp : s.pause = false)
    (hkP : inp.keyP = false) (hkE : inp.keyEsc = false)
    (ht : s.scoreDelayTimer = 0)
    (hy : GROUND_LEVEL ≤ (tickBeforeGround env inp (bumpFrames s)).ball.position.y +
      (tickBeforeGround env inp (bumpFrames s)).ball.radius) :
    ((tickBeforeGround env inp (bumpFrames s)).ball.position.x < NET_X →
      (updateGame env inp s).player2.score = s.player2.score + 1 ∧
        (updateGame env inp s).player1.score = s.player1.score ∧
        (updateGame env inp s).servingSide = Side.RIGHT) ∧
    (NET_X < (tickBeforeGround env inp (bumpFrames s)).ball.position.x →
      (updateGame env inp s).player1.score = s.player1.score + 1 ∧
        (updateGame env inp s).player2.score = s.player2.score ∧
        (updateGame env inp s).servingSide = Side.LEFT) := by
  have hb := updateGame_playing env inp s hg hp hkP hkE
  rw [hb]
  unfold playingTick
  have hmt : (tickBeforeGround env inp (bumpFrames s)).scoreDelayTimer = 0 :=
    tickBeforeGround_timer0 env inp (bumpFrames s) ht
  have hmf := tickBeforeGround_facts env inp (bumpFrames s)
  constructor
  · intro hx
    obtain ⟨a1, a2, a3, _, _⟩ :=
      stepGround_score_left env (tickBeforeGround env inp (bumpFrames s)) hy hmt hx
    exact ⟨by rw [a1, hmf.2.1]; rfl, by rw [a2, hmf.1]; rfl, a3⟩
  · intro hx
    obtain ⟨a1, a2, a3, _, _⟩ :=
      stepGround_score_right env (tickBeforeGround env inp (bumpFrames s)) hy hmt
        (not_lt.mpr (le_of_lt hx))
    exact ⟨by rw [a1, hmf.1]; rfl, by rw [a2, hmf.2.1]; rfl, a3⟩

/-- Concrete evaluation for the C2 witness: from `baseS` the ball touches
down this tick at x = 300, left of the centerline. -/
theorem c2eval :
    GROUND_LEVEL ≤ (tickBeforeGround env0 inp0 (bumpFrames baseS)).ball.position.y +
        (tickBeforeGround env0 inp0 (bumpFrames baseS)).ball.radius ∧
      (tickBeforeGround env0 inp0 (bumpFrames baseS)).ball.position.x < NET_X := by
  norm_num [tickBeforeGround, tickToDelay, stepCollide2, stepCollide1, stepNet, stepCeiling,
    stepWalls, stepBallIntegrate, stepDelay, stepPlayerPhysics, stepAI, stepControls,
    stepTimerParticles, movePlayer1, movePlayer2, updateAI, physPlayer, updateBallTrail,
    updateParticles, updateParticle, ballPlayerResponse, clampSpeed, preClampVel, addImpulse,
    dampVel, reflectVel, normalizeWith, collisionNormal, pushOut, checkCollisionCircles,
    checkCollisionCircleRec, netRect, resetBall, bumpFrames, baseS, env0, inp0, restP1,
    restP2, ballG, vadd, SCREEN_WIDTH, SCREEN_HEIGHT, PLAYER_GRAVITY, BALL_GRAVITY,
    GROUND_LEVEL, PLAYER_RADIUS, BALL_RADIUS, PLAYER_MOVE_SPEED, PLAYER_JUMP_FORCE,
    PLAYER_MAX_VELOCITY_Y, BALL_MAX_SPEED, NET_X, NET_HEIGHT, NET_WIDTH, AI_REACTION_DISTANCE,
    AI_JUMP_THRESHOLD, AI_POSITION_TOLERANCE, TRAIL_LENGTH, mode_ts, mode_st, side_rl, side_lr]

/-- Witness for C2: in the concrete state `baseS` the ball lands at
x = 300 < 512; the right player's score becomes 1 and RIGHT serves. -/
theorem c2_ground_scoring_witness :
    (updateGame env0 inp0 baseS).player2.score = baseS.player2.score + 1 ∧
      (updateGame env0 inp0 baseS).player1.score = baseS.player1.score ∧
      (updateGame env0 inp0 baseS).servingSide = Side.RIGHT :=
  (c2_ground_scoring env0 inp0 baseS rfl rfl rfl rfl rfl c2eval.1).1 c2eval.2

/-! ### Claim C10 -/

/-- The C10 witness state: player 2 stands at x = 580 and the ball at
(576, 671) overlaps it; the collision response pushes the ball out along
the normal (-4/5, 3/5) to exactly (512, 719), i.e. the ball meets the
ground with its center precisely on the net centerline. -/
def sC10 : GState :=
  { baseS with player2 := { restP2 with position := ⟨580, 668⟩ },
               ball := { ballG with position := ⟨576, 671⟩ } }

/-- Environment for the C10 witness: the only square root the tick takes
is of 25 (the squared distance between ball and player 2). -/
def envC10 : Env := { env0 with sqrtQ := fun q => if q = 25 then 5 else 0 }

/-- C10: when the ball reaches the ground with its center x exactly equal
to the net centerline (x = NET_X) and the post-score delay inactive, the
left player's score increments and the serve passes to LEFT: the
exact-centerline landing is adjudicated in favor of the left player. -/
theorem c10_centerline_left_scores (env : Env) (inp : Input) (s : GState)
    (hg : s.gameState = GameSt.PLAYING) (hp : s.pause = false)
    (hkP : inp.keyP = false) (hkE : inp.keyEsc = false)
    (ht : s.scoreDelayTimer = 0)
    (hy : GROUND_LEVEL ≤ (tickBeforeGround env inp (bumpFrames s)).ball.position.y +
      (tickBeforeGround env inp (bumpFrames s)).ball.radius)
    (hx : (tickBeforeGround env inp (bumpFrames s)).ball.position.x = NET_X) :
    (updateGame env inp s).player1.score = s.player1.score + 1 ∧
      (updateGame env inp s).player2.score = s.player2.score ∧
      (updateGame env inp s).servingSide = Side.LEFT := by
  have hb := updateGame_playing env inp s hg hp hkP hkE
  rw [hb]
  unfold playingTick
  have hmt : (tickBeforeGround env inp (bumpFrames s)).scoreDelayTimer = 0 :=
    tickBeforeGround_timer0 env inp (bumpFrames s) ht
  have hmf := tickBeforeGround_facts env inp (bumpFrames s)
  obtain ⟨a1, a2, a3, _, _⟩ :=
    stepGround_score_right env (tickBeforeGround env inp (bumpFrames s)) hy hmt
      (by rw [hx]; exact lt_irrefl NET_X)
  exact ⟨by rw [a1, hmf.1]; rfl, by rw [a2, hmf.2.1]; rfl, a3⟩

/-- Concrete evaluation for the C10 witness: the ball is repositioned by
the player-2 collision to (512, 719), touching the ground with its center
exactly on the centerline. -/
theorem c10eval :
    GROUND_LEVEL ≤ (tickBeforeGround envC10 inp0 (bumpFrames sC10)).ball.position.y +
        (tickBeforeGround envC10 inp0 (bumpFrames sC10)).ball.radius ∧
      (tickBeforeGround envC10 inp0 (bumpFrames sC10)).ball.position.x = NET_X := by
  norm_num [tickBeforeGround, tickToDelay, stepCollide2, stepCollide1, stepNet, stepCeiling,
    stepWalls, stepBallIntegrate, stepDelay, stepPlayerPhysics, stepAI, stepControls,
    stepTimerParticles, movePlayer1, movePlayer2, updateAI, physPlayer, updateBallTrail,
    updateParticles, updateParticle, ballPlayerResponse, clampSpeed, preClampVel, addImpulse,
    dampVel, reflectVel, normalizeWith, collisionNormal, pushOut, checkCollisionCircles,
    checkCollisionCircleRec, netRect, resetBall, bumpFrames, baseS, sC10, envC10, env0, inp0,
    restP1, restP2, ballG, vadd, SCREEN_WIDTH, SCREEN_HEIGHT, PLAYER_GRAVITY, BALL_GRAVITY,
    GROUND_LEVEL, PLAYER_RADIUS, BALL_RADIUS, PLAYER_MOVE_SPEED, PLAYER_JUMP_FORCE,
    PLAYER_MAX_VELOCITY_Y, BALL_MAX_SPEED, NET_X, NET_HEIGHT, NET_WIDTH, AI_REACTION_DISTANCE,
    AI_JUMP_THRESHOLD, AI_POSITION_TOLERANCE, TRAIL_LENGTH, mode_ts, mode_st, side_rl, side_lr]

/-- Witness for C10: the engineered exact-centerline landing gives the
point to player 1 and the serve to LEFT. -/
theorem c10_centerline_left_scores_witness :
    (updateGame envC10 inp0 sC10).player1.score = sC10.player1.score + 1 ∧
      (updateGame envC10 inp0 sC10).player2.score = sC10.player2.score ∧
      (updateGame envC10 inp0 sC10).servingSide = Side.LEFT :=
  c10_centerline_left_scores envC10 inp0 sC10 rfl rfl rfl rfl rfl c10eval.1 c10eval.2


/-! ### Claim C3 -/

/-- The score/state invariant maintained by the game flow: scores never
exceed the win threshold and, while a match is being PLAYED, both scores
are strictly below it. -/
def ScoreInv (s : GState) : Prop :=
  s.player1.score ≤ WIN_SCORE ∧ s.player2.score ≤ WIN_SCORE ∧
    (s.gameState = GameSt.PLAYING →
      s.player1.score < WIN_SCORE ∧ s.player2.score < WIN_SCORE)

set_option maxHeartbeats 1600000 in
theorem menuStep_inv (inp : Input) (s : GState) (hg : s.gameState = GameSt.MENU)
    (h1 : s.player1.score ≤ WIN_SCORE) (h2 : s.player2.score ≤ WIN_SCORE) :
    ScoreInv (menuStep inp s) := by
  unfold menuStep ScoreInv
  dsimp only
  split_ifs <;> simp_all [WIN_SCORE]

theorem gameoverStep_inv (inp : Input) (s : GState) (hg : s.gameState = GameSt.GAMEOVER)
    (h1 : s.player1.score ≤ WIN_SCORE) (h2 : s.player2.score ≤ WIN_SCORE) :
    ScoreInv (gameoverStep inp s) := by
  unfold gameoverStep ScoreInv
  split_ifs <;> simp_all [WIN_SCORE]

theorem creditsStep_inv (inp : Input) (s : GState) (hg : s.gameState = GameSt.CREDITS)
    (h1 : s.player1.score ≤ WIN_SCORE) (h2 : s.player2.score ≤ WIN_SCORE) :
    ScoreInv (creditsStep inp s) := by
  unfold creditsStep ScoreInv
  dsimp only
  split_ifs <;> simp_all [WIN_SCORE]

/-- A full unpaused PLAYING tick keeps scores within bounds and reaches
GAMEOVER whenever a score reaches the threshold. -/
theorem playingTick_win (env : Env) (inp : Input) (s : GState)
    (h1 : s.player1.score < WIN_SCORE) (h2 : s.player2.score < WIN_SCORE) :
    (playingTick env inp s).player1.score ≤ WIN_SCORE ∧
      (playingTick env inp s).player2.score ≤ WIN_SCORE ∧
      ((playingTick env inp s).player1.score ≥ WIN_SCORE ∨
          (playingTick env inp s).player2.score ≥ WIN_SCORE →
        (playingTick env inp s).gameState = GameSt.GAMEOVER) := by
  unfold playingTick
  have hmf := tickBeforeGround_facts env inp s
  exact stepGround_win env (tickBeforeGround env inp s)
    (by rw [hmf.1]; exact h1) (by rw [hmf.2.1]; exact h2)

theorem playingTick_inv (env : Env) (inp : Input) (t : GState)
    (h1 : t.player1.score < WIN_SCORE) (h2 : t.player2.score < WIN_SCORE) :
    ScoreInv (playingTick env inp t) ∧
      ((playingTick env inp t).player1.score ≥ WIN_SCORE ∨
          (playingTick env inp t).player2.score ≥ WIN_SCORE →
        (playingTick env inp t).gameState = GameSt.GAMEOVER) := by
  have hw := playingTick_win env inp t h1 h2
  refine ⟨⟨hw.1, hw.2.1, fun hPl => ?_⟩, hw.2.2⟩
  constructor
  · by_contra hcon
    have hgo := hw.2.2 (Or.inl (by omega))
    rw [hPl] at hgo
    exact absurd hgo (by simp)
  · by_contra hcon
    have hgo := hw.2.2 (Or.inr (by omega))
    rw [hPl] at hgo
    exact absurd hgo (by simp)

theorem playingStep_inv (env : Env) (inp : Input) (s : GState)
    (hs1 : s.player1.score < WIN_SCORE) (hs2 : s.player2.score < WIN_SCORE) :
    ScoreInv (playingStep env inp s) ∧
      ((playingStep env inp s).player1.score ≥ WIN_SCORE ∨
          (playingStep env inp s).player2.score ≥ WIN_SCORE →
        (playingStep env inp s).gameState = GameSt.GAMEOVER) := by
  unfold playingStep
  dsimp only
  split_ifs
  all_goals first
    | exact playingTick_inv env inp _ hs1 hs2
    | exact ⟨⟨le_of_lt hs1, le_of_lt hs2, fun _ => ⟨hs1, hs2⟩⟩,
        fun h => absurd
          (show s.player1.score ≥ WIN_SCORE ∨ s.player2.score ≥ WIN_SCORE from h) (by omega)⟩

/-- C3: the score/state invariant is preserved by every frame, and in the
same tick in which a score first reaches 10 while PLAYING the game state
becomes GAMEOVER (so the transition is never later, and the winner's
score never exceeds 10: one tick increments a score at most once, and no
branch outside PLAYING increases a score). -/
theorem c3_win_detection (env : Env) (inp : Input) (s : GState) (hI : ScoreInv s) :
    ScoreInv (updateGame env inp s) ∧
      (s.gameState = GameSt.PLAYING →
        ((updateGame env inp s).player1.score ≥ WIN_SCORE ∨
            (updateGame env inp s).player2.score ≥ WIN_SCORE) →
        (updateGame env inp s).gameState = GameSt.GAMEOVER) := by
  obtain ⟨h1, h2, hP⟩ := hI
  unfold updateGame
  dsimp only
  cases hg : s.gameState with
  | MENU =>
    exact ⟨menuStep_inv inp _ rfl h1 h2, fun hPl => absurd hPl (by simp)⟩
  | PLAYING =>
    obtain ⟨hs1, hs2⟩ := hP hg
    exact ⟨(playingStep_inv env inp
        { s with gameState := GameSt.PLAYING, framesCounter := s.framesCounter + 1 } hs1 hs2).1,
      fun _ => (playingStep_inv env inp
        { s with gameState := GameSt.PLAYING, framesCounter := s.framesCounter + 1 } hs1 hs2).2⟩
  | GAMEOVER =>
    exact ⟨gameoverStep_inv inp _ rfl h1 h2, fun hPl => absurd hPl (by simp)⟩
  | CREDITS =>
    exact ⟨creditsStep_inv inp _ rfl h1 h2, fun hPl => absurd hPl (by simp)⟩

/-- Witness for C3: from the two-player base state (scores 0:0, PLAYING)
one frame preserves the invariant and the win-transition property holds. -/
theorem c3_win_detection_witness :
    ScoreInv (updateGame env0 inp0 baseS) ∧
      (baseS.gameState = GameSt.PLAYING →
        ((updateGame env0 inp0 baseS).player1.score ≥ WIN_SCORE ∨
            (updateGame env0 inp0 baseS).player2.score ≥ WIN_SCORE) →
        (updateGame env0 inp0 baseS).gameState = GameSt.GAMEOVER) :=
  c3_win_detection env0 inp0 baseS ⟨by norm_num [baseS, restP1, WIN_SCORE],
    by norm_num [baseS, restP2, WIN_SCORE],
    fun _ => ⟨by norm_num [baseS, restP1, WIN_SCORE], by norm_num [baseS, restP2, WIN_SCORE]⟩⟩

/-! ### Claim C4 -/

/-- The code's reflection steps (lines 718-720) compute exactly the
mirror formula, for every normal vector. -/
theorem reflect_eq_mirror (v n : V2) :
    reflectVel v n = vsub v (smul (2 * vdot v n) n) := rfl

/-- C4: for a player-ball collision with a non-degenerate contact normal
(the distance L between the centers is positive), the normalized normal
is a unit vector, and the ball velocity right after reflection - before
the 5% damping - equals v - 2(v.n)n for the incoming velocity v. -/
theorem c4_reflection_law (p : Player) (b : Ball) (L : ℚ) (sq : ℚ → ℚ)
    (hL : 0 < L)
    (hL2 : L ^ 2 = normSq (collisionNormal p b))
    (hsq : sq ((collisionNormal p b).x * (collisionNormal p b).x +
      (collisionNormal p b).y * (collisionNormal p b).y) = L) :
    vdot (normalizeWith sq (collisionNormal p b))
        (normalizeWith sq (collisionNormal p b)) = 1 ∧
      reflectVel b.velocity (normalizeWith sq (collisionNormal p b)) =
        vsub b.velocity
          (smul (2 * vdot b.velocity (normalizeWith sq (collisionNormal p b)))
            (normalizeWith sq (collisionNormal p b))) := by
  refine ⟨?_, reflect_eq_mirror _ _⟩
  unfold normalizeWith
  rw [hsq, if_pos hL]
  unfold vdot collisionNormal
  unfold normSq collisionNormal at hL2
  dsimp only at hL2 ⊢
  have hLne : L ≠ 0 := ne_of_gt hL
  field_simp
  linarith [hL2]

/-- Concrete data for the C4 witness: player at (100, 668), ball center
at (103, 672), distance 5 with normal (3/5, 4/5). -/
def pC4 : Player := restP1

def bC4 : Ball := { ballG with position := ⟨103, 672⟩, velocity := ⟨2, -1⟩ }

def sqC4 : ℚ → ℚ := fun q => if q = 25 then 5 else 0

/-- Witness for C4 at distance 5 (normal (3/5, 4/5)). -/
theorem c4_reflection_law_witness :
    vdot (normalizeWith sqC4 (collisionNormal pC4 bC4))
        (normalizeWith sqC4 (collisionNormal pC4 bC4)) = 1 ∧
      reflectVel bC4.velocity (normalizeWith sqC4 (collisionNormal pC4 bC4)) =
        vsub bC4.velocity
          (smul (2 * vdot bC4.velocity (normalizeWith sqC4 (collisionNormal pC4 bC4)))
            (normalizeWith sqC4 (collisionNormal pC4 bC4))) :=
  c4_reflection_law pC4 bC4 5 sqC4 (by norm_num)
    (by norm_num [normSq, collisionNormal, pC4, bC4, restP1, ballG])
    (by norm_num [collisionNormal, pC4, bC4, restP1, ballG, sqC4])

/-! ### Claim C5 -/

/-- State for the C5 counterexample: the ball falls at 20 units/tick and
meets the ground this tick. -/
def sC5 : GState :=
  { baseS with ball := { ballG with position := ⟨300, 690⟩, velocity := ⟨0, 20⟩ } }

/-- Counterexample to C5 as stated: in this tick the ball-ground
collision resolves (the bottom edge reaches the ground line), yet the
end-of-tick speed is 20.4 > 15: wall, ceiling, net and ground bounces do
not clamp the ball speed; only the player collisions do. -/
theorem c5_counterexample :
    GROUND_LEVEL ≤ (tickBeforeGround env0 inp0 (bumpFrames sC5)).ball.position.y +
        (tickBeforeGround env0 inp0 (bumpFrames sC5)).ball.radius ∧
      BALL_MAX_SPEED ^ 2 < normSq (updateGame env0 inp0 sC5).ball.velocity := by
  norm_num [updateGame, playingStep, playingTick, stepGround, spawnGroundParticles, spawnN,
    activateFirst, normSq,
    tickBeforeGround, tickToDelay, stepCollide2, stepCollide1, stepNet, stepCeiling,
    stepWalls, stepBallIntegrate, stepDelay, stepPlayerPhysics, stepAI, stepControls,
    stepTimerParticles, movePlayer1, movePlayer2, updateAI, physPlayer, updateBallTrail,
    updateParticles, updateParticle, ballPlayerResponse, clampSpeed, preClampVel, addImpulse,
    dampVel, reflectVel, normalizeWith, collisionNormal, pushOut, checkCollisionCircles,
    checkCollisionCircleRec, netRect, resetBall, bumpFrames, baseS, sC5, env0, inp0, restP1,
    restP2, ballG, vadd, SCREEN_WIDTH, SCREEN_HEIGHT, PLAYER_GRAVITY, BALL_GRAVITY,
    GROUND_LEVEL, PLAYER_RADIUS, BALL_RADIUS, PLAYER_MOVE_SPEED, PLAYER_JUMP_FORCE,
    PLAYER_MAX_VELOCITY_Y, BALL_MAX_SPEED, NET_X, NET_HEIGHT, NET_WIDTH, AI_REACTION_DISTANCE,
    AI_JUMP_THRESHOLD, AI_POSITION_TOLERANCE, TRAIL_LENGTH, WIN_SCORE, SCORE_DELAY_FRAMES,
    MAX_PARTICLES, mode_ts, mode_st, side_rl, side_lr]

/-- C5 (amended): the player-ball collision response never leaves the
ball faster than BALL_MAX_SPEED, and when the clamp fires the resulting
velocity is a positive scalar multiple of the pre-clamp velocity, so the
direction is preserved exactly.  (The claim's "after any collision
resolution" only holds for the player collisions: wall, ceiling, net and
ground bounces apply no clamp - see the counterexample.) -/
theorem c5_speed_clamp_amended (p : Player) (b : Ball) (S : ℚ) (sq : ℚ → ℚ)
    (hS0 : 0 ≤ S)
    (hS2 : S ^ 2 = normSq (preClampVel sq p b))
    (hsq : sq ((preClampVel sq p b).x * (preClampVel sq p b).x +
      (preClampVel sq p b).y * (preClampVel sq p b).y) = S) :
    normSq (ballPlayerResponse sq p b).velocity ≤ BALL_MAX_SPEED ^ 2 ∧
      (BALL_MAX_SPEED < S →
        (ballPlayerResponse sq p b).velocity =
            smul (BALL_MAX_SPEED / S) (preClampVel sq p b) ∧
          0 < BALL_MAX_SPEED / S) := by
  have hres : (ballPlayerResponse sq p b).velocity = clampSpeed sq (preClampVel sq p b) := rfl
  rw [hres]
  unfold clampSpeed
  rw [hsq]
  dsimp only
  unfold normSq at hS2 ⊢
  split_ifs with hgt
  · have hS15 : (15 : ℚ) < S := by unfold BALL_MAX_SPEED at hgt; exact hgt
    have hSne : S ≠ 0 := by intro h; rw [h] at hS15; norm_num at hS15
    constructor
    · unfold BALL_MAX_SPEED
      have hkey : ((preClampVel sq p b).x / S * 15) ^ 2 + ((preClampVel sq p b).y / S * 15) ^ 2 =
          ((preClampVel sq p b).x ^ 2 + (preClampVel sq p b).y ^ 2) / S ^ 2 * 225 := by
        field_simp
        ring
      dsimp only
      rw [hkey, ← hS2, div_self (pow_ne_zero 2 hSne)]
      norm_num
    · intro _
      constructor
      · unfold smul BALL_MAX_SPEED
        simp only [V2.mk.injEq]
        constructor <;> ring
      · exact div_pos (by unfold BALL_MAX_SPEED; norm_num)
          (lt_trans (by norm_num) hS15)
  · push_neg at hgt
    refine ⟨?_, fun hlt => absurd hgt (not_le.mpr hlt)⟩
    have hsq2 := pow_le_pow_left₀ hS0 hgt 2
    rw [hS2] at hsq2
    unfold BALL_MAX_SPEED at hsq2 ⊢
    linarith [hsq2]

/-- Data for the C5 witness: player 2 at (580, 668) at rest, the ball
overlapping at (576, 671) moving at (20, 0).  The normal is (-4/5, 3/5);
reflection keeps the speed at 20, damping brings it to 19, and the clamp
rescales it to exactly 15. -/
def pC5 : Player := { restP2 with position := ⟨580, 668⟩ }

def bC5 : Ball := { ballG with position := ⟨576, 671⟩, velocity := ⟨20, 0⟩ }

def sqC5 : ℚ → ℚ := fun q => if q = 25 then 5 else if q = 361 then 19 else 0

/-- Witness for C5: the response clamps the pre-clamp speed 19 down to
15 while preserving the direction. -/
theorem c5_speed_clamp_amended_witness :
    normSq (ballPlayerResponse sqC5 pC5 bC5).velocity ≤ BALL_MAX_SPEED ^ 2 ∧
      (BALL_MAX_SPEED < 19 →
        (ballPlayerResponse sqC5 pC5 bC5).velocity =
            smul (BALL_MAX_SPEED / 19) (preClampVel sqC5 pC5 bC5) ∧
          0 < BALL_MAX_SPEED / (19 : ℚ)) :=
  c5_speed_clamp_amended pC5 bC5 19 sqC5 (by norm_num)
    (by norm_num [normSq, preClampVel, addImpulse, dampVel, reflectVel, normalizeWith,
      collisionNormal, pC5, bC5, restP2, ballG, sqC5])
    (by norm_num [preClampVel, addImpulse, dampVel, reflectVel, normalizeWith,
      collisionNormal, pC5, bC5, restP2, ballG, sqC5])


/-! ### Claim C1 helpers -/

theorem movePlayer1_bounds (inp : Input) (p : Player) (hr : p.radius = PLAYER_RADIUS) :
    PLAYER_RADIUS ≤ (movePlayer1 inp p).position.x ∧
      (movePlayer1 inp p).position.x + PLAYER_RADIUS ≤ NET_X - NET_WIDTH / 2 ∧
      ((movePlayer1 inp p).velocity.x = -PLAYER_MOVE_SPEED ∨
        (movePlayer1 inp p).velocity.x = 0 ∨
        (movePlayer1 inp p).velocity.x = PLAYER_MOVE_SPEED) := by
  unfold movePlayer1
  dsimp only
  norm_num [PLAYER_RADIUS, NET_X, NET_WIDTH, PLAYER_MOVE_SPEED] at hr ⊢
  split_ifs <;> dsimp only at * <;> exact ⟨by linarith, by linarith, by norm_num⟩

set_option maxHeartbeats 1600000 in
theorem movePlayer2_bounds (inp : Input) (p : Player) (hr : p.radius = PLAYER_RADIUS) :
    NET_X + NET_WIDTH / 2 + PLAYER_RADIUS ≤ (movePlayer2 inp p).position.x ∧
      (movePlayer2 inp p).position.x + PLAYER_RADIUS ≤ SCREEN_WIDTH ∧
      ((movePlayer2 inp p).velocity.x = -PLAYER_MOVE_SPEED ∨
        (movePlayer2 inp p).velocity.x = 0 ∨
        (movePlayer2 inp p).velocity.x = PLAYER_MOVE_SPEED) := by
  unfold movePlayer2
  dsimp only
  norm_num [PLAYER_RADIUS, NET_X, NET_WIDTH, PLAYER_MOVE_SPEED, SCREEN_WIDTH] at hr ⊢
  split_ifs <;> dsimp only at * <;> exact ⟨by linarith, by linarith, by norm_num⟩

set_option maxHeartbeats 3200000 in
theorem updateAI_x_bounds (roll : ℤ) (ball : Ball) (p : Player) (cd : ℕ)
    (hr : p.radius = PLAYER_RADIUS)
    (hlo : 2819 / 5 ≤ p.position.x) (hhi : p.position.x ≤ 4886 / 5) :
    2819 / 5 ≤ (updateAI roll ball p cd).1.position.x + (updateAI roll ball p cd).1.velocity.x ∧
      (updateAI roll ball p cd).1.position.x + (updateAI roll ball p cd).1.velocity.x ≤
        4886 / 5 := by
  unfold updateAI
  dsimp only
  norm_num [PLAYER_RADIUS, NET_X, NET_WIDTH, PLAYER_MOVE_SPEED, SCREEN_WIDTH,
    AI_POSITION_TOLERANCE, AI_REACTION_DISTANCE, AI_JUMP_THRESHOLD, PLAYER_JUMP_FORCE] at hr ⊢
  split_ifs <;> dsimp only at * <;> exact ⟨by linarith, by linarith⟩


theorem tickToDelay_player1 (env : Env) (inp : Input) (s : GState) :
    (tickToDelay env inp s).player1 = physPlayer (movePlayer1 inp s.player1) := by
  unfold tickToDelay
  rw [(stepDelay_keeps _).1]
  unfold stepPlayerPhysics
  dsimp only
  rw [(stepAI_keeps env _).1]
  rfl

theorem tickToDelay_player2_two (env : Env) (inp : Input) (s : GState)
    (hm : s.gameMode = Mode.TWO_PLAYER) :
    (tickToDelay env inp s).player2 = physPlayer (movePlayer2 inp s.player2) := by
  unfold tickToDelay
  rw [(stepDelay_keeps _).2.1]
  unfold stepPlayerPhysics
  dsimp only
  unfold stepAI
  rw [if_neg (by rw [show (stepControls inp (stepTimerParticles s)).gameMode = s.gameMode
    from rfl, hm]; simp)]
  unfold stepControls
  dsimp only
  rw [if_pos (show (stepTimerParticles s).gameMode = Mode.TWO_PLAYER from hm)]
  rfl

theorem tickToDelay_player2_single (env : Env) (inp : Input) (s : GState)
    (hm : s.gameMode = Mode.SINGLE_PLAYER) :
    (tickToDelay env inp s).player2 =
      physPlayer (updateAI env.aiRoll s.ball s.player2 s.aiJumpCooldown).1 := by
  unfold tickToDelay
  rw [(stepDelay_keeps _).2.1]
  unfold stepPlayerPhysics
  dsimp only
  unfold stepAI
  rw [if_pos (show (stepControls inp (stepTimerParticles s)).gameMode = Mode.SINGLE_PLAYER
    from hm)]
  unfold stepControls
  dsimp only
  rw [if_neg (by rw [show (stepTimerParticles s).gameMode = s.gameMode from rfl, hm]; simp)]
  rfl

/-- The ball phase of the tick does not move the players. -/
theorem playingTick_players (env : Env) (inp : Input) (s : GState) :
    (playingTick env inp s).player1.position = (tickToDelay env inp s).player1.position ∧
      (playingTick env inp s).player2.position = (tickToDelay env inp s).player2.position := by
  unfold playingTick tickBeforeGround
  simp

/-! ### Claim C1 -/

/-- State for the C1 counterexample: player 1 stands exactly at the net
clamp boundary x = 457 (so x + radius = 507 = NET_X - NET_WIDTH/2). -/
def sC1 : GState :=
  { baseS with player1 := { restP1 with position := ⟨457, 668⟩ },
               ball := { ballG with position := ⟨768, 100⟩ } }

/-- Input for the C1 counterexample: player 1 holds D (move right). -/
def inpD : Input := { inp0 with keyD := true }

/-- Counterexample to C1 as stated: holding right at the boundary, the
controls move the player, clamp it back, publish velocity +4, and the
physics integration then moves it 4 past the clamp again: at the end of
the tick x + radius = 511 > 507 = NET_X - NET_WIDTH/2. -/
theorem c1_counterexample :
    sC1.gameState = GameSt.PLAYING ∧ sC1.pause = false ∧
      ¬ ((updateGame env0 inpD sC1).player1.position.x + PLAYER_RADIUS ≤
        NET_X - NET_WIDTH / 2) := by
  refine ⟨rfl, rfl, ?_⟩
  norm_num [updateGame, playingStep, playingTick, stepGround, spawnGroundParticles, spawnN,
    activateFirst,
    tickBeforeGround, tickToDelay, stepCollide2, stepCollide1, stepNet, stepCeiling,
    stepWalls, stepBallIntegrate, stepDelay, stepPlayerPhysics, stepAI, stepControls,
    stepTimerParticles, movePlayer1, movePlayer2, updateAI, physPlayer, updateBallTrail,
    updateParticles, updateParticle, ballPlayerResponse, clampSpeed, preClampVel, addImpulse,
    dampVel, reflectVel, normalizeWith, collisionNormal, pushOut, checkCollisionCircles,
    checkCollisionCircleRec, netRect, resetBall, bumpFrames, baseS, sC1, env0, inp0, inpD,
    restP1, restP2, ballG, vadd, SCREEN_WIDTH, SCREEN_HEIGHT, PLAYER_GRAVITY, BALL_GRAVITY,
    GROUND_LEVEL, PLAYER_RADIUS, BALL_RADIUS, PLAYER_MOVE_SPEED, PLAYER_JUMP_FORCE,
    PLAYER_MAX_VELOCITY_Y, BALL_MAX_SPEED, NET_X, NET_HEIGHT, NET_WIDTH, AI_REACTION_DISTANCE,
    AI_JUMP_THRESHOLD, AI_POSITION_TOLERANCE, TRAIL_LENGTH, WIN_SCORE, SCORE_DELAY_FRAMES,
    MAX_PARTICLES, mode_ts, mode_st, side_rl, side_lr]

/-- C1 (amended): at the end of an unpaused PLAYING tick the side
containment holds up to a slack of one move step (PLAYER_MOVE_SPEED = 4,
because the clamp runs before the velocity integration), which still
keeps each player strictly on its own side of the net centerline:
player 1 always satisfies radius - 4 ≤ x and x + radius ≤ 507 + 4 < NET_X;
player 2 in two-player mode symmetrically; in single-player mode the AI
preserves the containment band [2819/5, 4886/5] for its center
(so x - radius > NET_X). -/
theorem c1_players_confined_amended (env : Env) (inp : Input) (s : GState)
    (hg : s.gameState = GameSt.PLAYING) (hp : s.pause = false)
    (hkP : inp.keyP = false) (hkE : inp.keyEsc = false)
    (hr1 : s.player1.radius = PLAYER_RADIUS) (hr2 : s.player2.radius = PLAYER_RADIUS) :
    (PLAYER_RADIUS - PLAYER_MOVE_SPEED ≤ (updateGame env inp s).player1.position.x ∧
      (updateGame env inp s).player1.position.x + PLAYER_RADIUS ≤
        NET_X - NET_WIDTH / 2 + PLAYER_MOVE_SPEED ∧
      (updateGame env inp s).player1.position.x + PLAYER_RADIUS < NET_X) ∧
    (s.gameMode = Mode.TWO_PLAYER →
      NET_X + NET_WIDTH / 2 - PLAYER_MOVE_SPEED ≤
          (updateGame env inp s).player2.position.x - PLAYER_RADIUS ∧
        (updateGame env inp s).player2.position.x + PLAYER_RADIUS ≤
          SCREEN_WIDTH + PLAYER_MOVE_SPEED ∧
        NET_X < (updateGame env inp s).player2.position.x - PLAYER_RADIUS) ∧
    (s.gameMode = Mode.SINGLE_PLAYER →
      2819 / 5 ≤ s.player2.position.x → s.player2.position.x ≤ 4886 / 5 →
      2819 / 5 ≤ (updateGame env inp s).player2.position.x ∧
        (updateGame env inp s).player2.position.x ≤ 4886 / 5 ∧
        NET_X < (updateGame env inp s).player2.position.x - PLAYER_RADIUS) := by
  rw [updateGame_playing env inp s hg hp hkP hkE]
  have hpp := playingTick_players env inp (bumpFrames s)
  refine ⟨?_, ?_, ?_⟩
  · rw [hpp.1, tickToDelay_player1]
    have hb := movePlayer1_bounds inp (bumpFrames s).player1 hr1
    have hx := (physPlayer_facts (movePlayer1 inp (bumpFrames s).player1)).2.1
    rw [hx]
    norm_num [PLAYER_RADIUS, NET_X, NET_WIDTH, PLAYER_MOVE_SPEED] at hb ⊢
    rcases hb.2.2 with hv | hv | hv <;> rw [hv] <;>
      refine ⟨by linarith [hb.1], by linarith [hb.2.1], by linarith [hb.2.1]⟩
  · intro hm
    rw [hpp.2, tickToDelay_player2_two env inp (bumpFrames s) hm]
    have hb := movePlayer2_bounds inp (bumpFrames s).player2 hr2
    have hx := (physPlayer_facts (movePlayer2 inp (bumpFrames s).player2)).2.1
    rw [hx]
    norm_num [PLAYER_RADIUS, NET_X, NET_WIDTH, PLAYER_MOVE_SPEED, SCREEN_WIDTH] at hb ⊢
    rcases hb.2.2 with hv | hv | hv <;> rw [hv] <;>
      refine ⟨by linarith [hb.1], by linarith [hb.2.1], by linarith [hb.1]⟩
  · intro hm hlo hhi
    rw [hpp.2, tickToDelay_player2_single env inp (bumpFrames s) hm]
    have hb := updateAI_x_bounds env.aiRoll (bumpFrames s).ball (bumpFrames s).player2
      (bumpFrames s).aiJumpCooldown hr2 hlo hhi
    have hx := (physPlayer_facts
      (updateAI env.aiRoll (bumpFrames s).ball (bumpFrames s).player2
        (bumpFrames s).aiJumpCooldown).1).2.1
    rw [hx]
    norm_num [PLAYER_RADIUS, NET_X] at hb ⊢
    exact ⟨by linarith [hb.1], by linarith [hb.2], by linarith [hb.1]⟩

/-- Witness for C1 (amended) at the two-player base state. -/
theorem c1_players_confined_amended_witness :
    (PLAYER_RADIUS - PLAYER_MOVE_SPEED ≤ (updateGame env0 inp0 baseS).player1.position.x ∧
      (updateGame env0 inp0 baseS).player1.position.x + PLAYER_RADIUS ≤
        NET_X - NET_WIDTH / 2 + PLAYER_MOVE_SPEED ∧
      (updateGame env0 inp0 baseS).player1.position.x + PLAYER_RADIUS < NET_X) ∧
    (baseS.gameMode = Mode.TWO_PLAYER →
      NET_X + NET_WIDTH / 2 - PLAYER_MOVE_SPEED ≤
          (updateGame env0 inp0 baseS).player2.position.x - PLAYER_RADIUS ∧
        (updateGame env0 inp0 baseS).player2.position.x + PLAYER_RADIUS ≤
          SCREEN_WIDTH + PLAYER_MOVE_SPEED ∧
        NET_X < (updateGame env0 inp0 baseS).player2.position.x - PLAYER_RADIUS) ∧
    (baseS.gameMode = Mode.SINGLE_PLAYER →
      2819 / 5 ≤ baseS.player2.position.x → baseS.player2.position.x ≤ 4886 / 5 →
      2819 / 5 ≤ (updateGame env0 inp0 baseS).player2.position.x ∧
        (updateGame env0 inp0 baseS).player2.position.x ≤ 4886 / 5 ∧
        NET_X < (updateGame env0 inp0 baseS).player2.position.x - PLAYER_RADIUS) :=
  c1_players_confined_amended env0 inp0 baseS rfl rfl rfl rfl rfl rfl


/-! ### Claim C7 -/

theorem stepCollide1_id (env : Env) (s : GState) (h : s.scoreDelayTimer ≠ 0) :
    stepCollide1 env s = s := by
  unfold stepCollide1
  rw [if_neg]
  intro hc
  exact h hc.1

theorem stepCollide2_id (env : Env) (s : GState) (h : s.scoreDelayTimer ≠ 0) :
    stepCollide2 env s = s := by
  unfold stepCollide2
  rw [if_neg]
  intro hc
  exact h hc.1

theorem tickToDelay_timer_pred (env : Env) (inp : Input) (s : GState)
    (ht : 2 ≤ s.scoreDelayTimer) :
    (tickToDelay env inp s).scoreDelayTimer = s.scoreDelayTimer - 1 := by
  unfold tickToDelay
  have hX : (stepPlayerPhysics (stepAI env
      (stepControls inp (stepTimerParticles s)))).scoreDelayTimer = s.scoreDelayTimer := by
    simp
  unfold stepDelay
  dsimp only
  rw [hX, if_pos (show s.scoreDelayTimer > 0 by omega),
    if_neg (show ¬ (s.scoreDelayTimer - 1 = 0) by omega)]

/-- Bridging lemma: `updateGameNC` on an unpaused PLAYING state runs the
collision-free tick. -/
theorem updateGameNC_playing (env : Env) (inp : Input) (s : GState)
    (hg : s.gameState = GameSt.PLAYING) (hp : s.pause = false)
    (hkP : inp.keyP = false) (hkE : inp.keyEsc = false) :
    updateGameNC env inp s = playingTickNC env inp (bumpFrames s) := by
  unfold updateGameNC playingStepNC bumpFrames
  simp only [hg, hkP, hkE, hp]
  rfl

/-- State for the C7 counterexample and witness: mid-delay (timer 100),
ball in mid-air moving upward. -/
def sC7 : GState :=
  { baseS with scoreDelayTimer := 100,
               ball := { ballG with position := ⟨300, 600⟩, velocity := ⟨0, -5⟩ } }

/-- Counterexample to C7 as stated: with the post-score delay active the
tick still integrates the ball, so its position changes (600 to 595);
the ball does not stay in its resting position during the delay. -/
theorem c7_counterexample :
    0 < sC7.scoreDelayTimer ∧ 0 < (updateGame env0 inp0 sC7).scoreDelayTimer ∧
      (updateGame env0 inp0 sC7).ball.position.y ≠ sC7.ball.position.y := by
  refine ⟨by norm_num [sC7, baseS], ?_, ?_⟩ <;>
  norm_num [updateGame, playingStep, playingTick, stepGround, spawnGroundParticles, spawnN,
    activateFirst,
    tickBeforeGround, tickToDelay, stepCollide2, stepCollide1, stepNet, stepCeiling,
    stepWalls, stepBallIntegrate, stepDelay, stepPlayerPhysics, stepAI, stepControls,
    stepTimerParticles, movePlayer1, movePlayer2, updateAI, physPlayer, updateBallTrail,
    updateParticles, updateParticle, ballPlayerResponse, clampSpeed, preClampVel, addImpulse,
    dampVel, reflectVel, normalizeWith, collisionNormal, pushOut, checkCollisionCircles,
    checkCollisionCircleRec, netRect, resetBall, bumpFrames, baseS, sC7, env0, inp0,
    restP1, restP2, ballG, vadd, SCREEN_WIDTH, SCREEN_HEIGHT, PLAYER_GRAVITY, BALL_GRAVITY,
    GROUND_LEVEL, PLAYER_RADIUS, BALL_RADIUS, PLAYER_MOVE_SPEED, PLAYER_JUMP_FORCE,
    PLAYER_MAX_VELOCITY_Y, BALL_MAX_SPEED, NET_X, NET_HEIGHT, NET_WIDTH, AI_REACTION_DISTANCE,
    AI_JUMP_THRESHOLD, AI_POSITION_TOLERANCE, TRAIL_LENGTH, WIN_SCORE, SCORE_DELAY_FRAMES,
    MAX_PARTICLES, mode_ts, mode_st, side_rl, side_lr]

/-- C7 (amended): while the post-score delay stays active through the
tick (timer at least 2, so it is still positive at the collision checks),
both player-ball collision checks are suppressed: the tick computes
exactly the same state as the tick with the two collision steps removed.
(The ball does NOT stay in its resting position during the delay: its
physics continues - see the counterexample.) -/
theorem c7_collision_suppression_amended (env : Env) (inp : Input) (s : GState)
    (hg : s.gameState = GameSt.PLAYING) (hp : s.pause = false)
    (hkP : inp.keyP = false) (hkE : inp.keyEsc = false)
    (ht : 2 ≤ s.scoreDelayTimer) :
    updateGame env inp s = updateGameNC env inp s := by
  rw [updateGame_playing env inp s hg hp hkP hkE,
    updateGameNC_playing env inp s hg hp hkP hkE]
  unfold playingTick playingTickNC tickBeforeGround tickBeforeGroundNC
  have hY : (stepNet (stepCeiling (stepWalls (stepBallIntegrate
      (tickToDelay env inp (bumpFrames s)))))).scoreDelayTimer ≠ 0 := by
    have hT := tickToDelay_timer_pred env inp (bumpFrames s) ht
    simp only [(stepNet_keeps _).2.2.1, (stepCeiling_keeps _).2.2.1,
      (stepWalls_keeps _).2.2.1, (stepBallIntegrate_keeps _).2.2.1, hT,
      show (bumpFrames s).scoreDelayTimer = s.scoreDelayTimer from rfl]
    omega
  rw [stepCollide1_id env _ hY, stepCollide2_id env _ hY]

/-- Witness for C7 (amended) at the mid-delay state `sC7`. -/
theorem c7_collision_suppression_amended_witness :
    updateGame env0 inp0 sC7 = updateGameNC env0 inp0 sC7 :=
  c7_collision_suppression_amended env0 inp0 sC7 rfl rfl rfl rfl
    (by norm_num [sC7, baseS])

/-! ### Claim C8 -/

def countActive (ps : List Particle) : ℕ := ps.countP (fun q => q.active)

def countInactive (ps : List Particle) : ℕ := ps.countP (fun q => !q.active)

theorem countActive_add_countInactive (ps : List Particle) :
    countActive ps + countInactive ps = ps.length := by
  induction ps with
  | nil => rfl
  | cons q rest ih =>
    unfold countActive countInactive at ih ⊢
    rw [List.countP_cons, List.countP_cons]
    by_cases hq : q.active <;> simp [hq] <;> omega

theorem activateFirst_length (pos vel : V2) (ps : List Particle) :
    (activateFirst pos vel ps).length = ps.length := by
  induction ps with
  | nil => rfl
  | cons q rest ih =>
    unfold activateFirst
    split_ifs <;> simp [ih]

theorem countActive_cons (q : Particle) (rest : List Particle) :
    countActive (q :: rest) = countActive rest + if q.active then 1 else 0 := by
  unfold countActive
  rw [List.countP_cons]

theorem countInactive_cons (q : Particle) (rest : List Particle) :
    countInactive (q :: rest) = countInactive rest + if q.active then 0 else 1 := by
  unfold countInactive
  rw [List.countP_cons]
  by_cases hq : q.active <;> simp [hq]

theorem activateFirst_full (pos vel : V2) (ps : List Particle)
    (h : countInactive ps = 0) : activateFirst pos vel ps = ps := by
  induction ps with
  | nil => rfl
  | cons q rest ih =>
    rw [countInactive_cons] at h
    unfold activateFirst
    by_cases hq : q.active
    · rw [if_pos hq] at h
      rw [if_pos hq, ih (by omega)]
    · rw [if_neg hq] at h
      exact absurd h (by omega)

theorem activateFirst_pos (pos vel : V2) (ps : List Particle)
    (h : 0 < countInactive ps) :
    countActive (activateFirst pos vel ps) = countActive ps + 1 ∧
      countInactive (activateFirst pos vel ps) = countInactive ps - 1 := by
  induction ps with
  | nil => exact absurd h (by unfold countInactive; simp)
  | cons q rest ih =>
    unfold activateFirst
    by_cases hq : q.active
    · rw [if_pos hq]
      have hrest : 0 < countInactive rest := by
        rw [countInactive_cons, if_pos hq] at h
        omega
      obtain ⟨ha, hi⟩ := ih hrest
      rw [countActive_cons, countInactive_cons, countActive_cons, countInactive_cons,
        ha, hi, if_pos hq, if_pos hq]
      constructor <;> omega
    · rw [if_neg hq]
      rw [countActive_cons, countInactive_cons, countActive_cons, countInactive_cons]
      norm_num [hq]

theorem spawnN_counts (pos : V2) (vs : ℕ → V2) :
    ∀ (k i : ℕ) (ps : List Particle),
      countActive (spawnN pos vs i k ps) = countActive ps + min k (countInactive ps) ∧
        (spawnN pos vs i k ps).length = ps.length := by
  intro k
  induction k with
  | zero => intro i ps; simp [spawnN]
  | succ n ih =>
    intro i ps
    unfold spawnN
    rcases Nat.eq_zero_or_pos (countInactive ps) with h0 | hpos
    · rw [activateFirst_full pos (vs i) ps h0]
      have hrec := ih (i + 1) ps
      refine ⟨?_, hrec.2⟩
      rw [hrec.1, h0]
      simp
    · have hc := activateFirst_pos pos (vs i) ps hpos
      have hl := activateFirst_length pos (vs i) ps
      have hrec := ih (i + 1) (activateFirst pos (vs i) ps)
      refine ⟨?_, by rw [hrec.2, hl]⟩
      rw [hrec.1, hc.1, hc.2]
      omega

/-- C8: emitting `n` particles into a pool of capacity 100 with `k`
inactive slots activates exactly `min n (min k 100)` new particles, never
grows the pool, and never exceeds the capacity; the excess requests are
silently dropped. -/
theorem c8_particle_pool (vs : ℕ → V2) (pos : V2) (n : ℕ) (ps : List Particle)
    (hlen : ps.length = MAX_PARTICLES) :
    countActive (spawnGroundParticles vs pos n ps) =
        countActive ps + min n (min (countInactive ps) MAX_PARTICLES) ∧
      (spawnGroundParticles vs pos n ps).length = MAX_PARTICLES ∧
      countActive (spawnGroundParticles vs pos n ps) ≤ MAX_PARTICLES := by
  have hs := spawnN_counts pos vs (min n MAX_PARTICLES) 0 ps
  have hsum := countActive_add_countInactive ps
  unfold spawnGroundParticles
  unfold MAX_PARTICLES at hlen hs hsum ⊢
  refine ⟨?_, by rw [hs.2, hlen], ?_⟩
  · rw [hs.1]
    omega
  · rw [hs.1]
    omega

theorem countActive_replicate (n : ℕ) : countActive (List.replicate n inactiveP) = 0 := by
  induction n with
  | zero => rfl
  | succ m ih =>
    unfold countActive at ih ⊢
    rw [List.replicate_succ, List.countP_cons, ih]
    norm_num [inactiveP]

theorem countInactive_replicate (n : ℕ) : countInactive (List.replicate n inactiveP) = n := by
  induction n with
  | zero => rfl
  | succ m ih =>
    unfold countInactive at ih ⊢
    rw [List.replicate_succ, List.countP_cons, ih]
    norm_num [inactiveP]

/-- Witness for C8: 15 into an empty pool of 100 gives exactly 15 active
slots; 200 into an empty pool of 100 gives exactly 100. -/
theorem c8_particle_pool_witness :
    countActive (spawnGroundParticles (fun _ => ⟨0, 0⟩) ⟨300, GROUND_LEVEL⟩ 15
        (List.replicate 100 inactiveP)) = 15 ∧
      countActive (spawnGroundParticles (fun _ => ⟨0, 0⟩) ⟨300, GROUND_LEVEL⟩ 200
        (List.replicate 100 inactiveP)) = 100 := by
  have h1 := (c8_particle_pool (fun _ => ⟨0, 0⟩) ⟨300, GROUND_LEVEL⟩ 15
    (List.replicate 100 inactiveP) (by simp [MAX_PARTICLES])).1
  have h2 := (c8_particle_pool (fun _ => ⟨0, 0⟩) ⟨300, GROUND_LEVEL⟩ 200
    (List.replicate 100 inactiveP) (by simp [MAX_PARTICLES])).1
  rw [countActive_replicate, countInactive_replicate] at h1 h2
  rw [h1, h2]
  unfold MAX_PARTICLES
  omega


/-- Horizontal seek dynamics of the AI when the ball is not approaching. -/
def seekX (x : ℚ) : ℚ :=
  if x < NET_X + (SCREEN_WIDTH - NET_X) / 2 - AI_POSITION_TOLERANCE then
    x + PLAYER_MOVE_SPEED * 0.6
  else if x > NET_X + (SCREEN_WIDTH - NET_X) / 2 + AI_POSITION_TOLERANCE then
    x - PLAYER_MOVE_SPEED * 0.6
  else x

theorem aiStep_seek (roll : ℤ) (ball : Ball) (p : Player) (cd : ℕ)
    (hbx : ball.position.x < NET_X) (hbv : ball.velocity.x = 0)
    (hy : p.position.y = GROUND_LEVEL - p.radius) (hvy : p.velocity.y = 0)
    (hr : p.radius = PLAYER_RADIUS) :
    (aiStep roll ball p cd).1 =
      { p with position := ⟨seekX p.position.x, GROUND_LEVEL - p.radius⟩,
               velocity := ⟨0, 0⟩, onGround := true } := by
  have hnot : ¬ ((ball.velocity.x > 0 ∧ ball.position.x < NET_X) ∨
      ball.position.x ≥ NET_X) := by
    intro h
    rcases h with ⟨h1, _⟩ | h2
    · rw [hbv] at h1
      exact lt_irrefl 0 h1
    · exact absurd h2 (not_le.mpr hbx)
  unfold aiStep updateAI
  dsimp only
  rw [if_pos hnot]
  unfold physPlayer vadd seekX
  dsimp only
  split_ifs <;>
    simp_all [PLAYER_GRAVITY, PLAYER_MAX_VELOCITY_Y, GROUND_LEVEL, SCREEN_HEIGHT,
      PLAYER_RADIUS]

theorem seekX_lo (x : ℚ) (h : x < 748) : seekX x = x + 12 / 5 := by
  unfold seekX
  rw [if_pos]
  · norm_num [PLAYER_MOVE_SPEED]
  · norm_num [NET_X, SCREEN_WIDTH, AI_POSITION_TOLERANCE]
    linarith

theorem seekX_hi (x : ℚ) (h : 788 < x) : seekX x = x - 12 / 5 := by
  unfold seekX
  rw [if_neg, if_pos]
  · norm_num [PLAYER_MOVE_SPEED]
  · norm_num [NET_X, SCREEN_WIDTH, AI_POSITION_TOLERANCE]
    linarith
  · norm_num [NET_X, SCREEN_WIDTH, AI_POSITION_TOLERANCE]
    linarith

theorem seekX_band (x : ℚ) (h1 : 748 ≤ x) (h2 : x ≤ 788) : seekX x = x := by
  unfold seekX
  rw [if_neg, if_neg]
  · norm_num [NET_X, SCREEN_WIDTH, AI_POSITION_TOLERANCE]
    linarith
  · norm_num [NET_X, SCREEN_WIDTH, AI_POSITION_TOLERANCE]
    linarith

/-- Number of seek steps that certainly brings x into the tolerance band. -/
def seekSteps (x : ℚ) : ℕ :=
  (Int.ceil (max (748 - x) (x - 788) / (12 / 5 : ℚ))).toNat

theorem ceil_step_bound (q : ℚ) : q ≤ 12 / 5 * ((Int.ceil (q / (12 / 5))).toNat : ℚ) := by
  have h1 : q / (12 / 5) ≤ ((Int.ceil (q / (12 / 5)) : ℤ) : ℚ) := Int.le_ceil _
  have h2 : ((Int.ceil (q / (12 / 5)) : ℤ) : ℚ) ≤ (((Int.ceil (q / (12 / 5))).toNat : ℤ) : ℚ) := by
    exact_mod_cast Int.self_le_toNat _
  have h3 : q / (12 / 5) ≤ ((Int.ceil (q / (12 / 5))).toNat : ℚ) := by
    refine le_trans h1 (le_trans h2 ?_)
    push_cast
    exact le_refl _
  calc q = 12 / 5 * (q / (12 / 5)) := by field_simp; ring
    _ ≤ 12 / 5 * ((Int.ceil (q / (12 / 5))).toNat : ℚ) := by
        exact mul_le_mul_of_nonneg_left h3 (by norm_num)

theorem seekSteps_bound (x : ℚ) :
    748 - x ≤ 12 / 5 * (seekSteps x : ℚ) ∧ x - 788 ≤ 12 / 5 * (seekSteps x : ℚ) := by
  unfold seekSteps
  constructor
  · exact le_trans (le_max_left _ _) (ceil_step_bound _)
  · exact le_trans (le_max_right _ _) (ceil_step_bound _)

/-- Fuel-indexed convergence of the seek dynamics: if the remaining
distance to the band is at most 12/5 per step times the fuel, the
iterated AI ends inside the band, at rest on the ground, with zero
published velocity. -/
theorem seek_iter_band (rolls : ℕ → ℤ) (ball : Ball)
    (hbx : ball.position.x < NET_X) (hbv : ball.velocity.x = 0) :
    ∀ (n : ℕ) (p : Player) (cd : ℕ),
      p.position.y = GROUND_LEVEL - p.radius → p.velocity.y = 0 → p.velocity.x = 0 →
      p.radius = PLAYER_RADIUS →
      748 - p.position.x ≤ 12 / 5 * (n : ℚ) → p.position.x - 788 ≤ 12 / 5 * (n : ℚ) →
      748 ≤ (aiIter rolls ball n (p, cd)).1.position.x ∧
        (aiIter rolls ball n (p, cd)).1.position.x ≤ 788 ∧
        (aiIter rolls ball n (p, cd)).1.velocity.x = 0 ∧
        (aiIter rolls ball n (p, cd)).1.velocity.y = 0 ∧
        (aiIter rolls ball n (p, cd)).1.position.y =
          GROUND_LEVEL - (aiIter rolls ball n (p, cd)).1.radius ∧
        (aiIter rolls ball n (p, cd)).1.radius = PLAYER_RADIUS := by
  intro n
  induction n with
  | zero =>
    intro p cd hy hvy hvx hr hlo hhi
    push_cast at hlo hhi
    rw [show aiIter rolls ball 0 (p, cd) = (p, cd) from rfl]
    exact ⟨by linarith, by linarith, hvx, hvy, hy, hr⟩
  | succ m ih =>
    intro p cd hy hvy hvx hr hlo hhi
    have hstep := aiStep_seek (rolls m) ball p cd hbx hbv hy hvy hr
    have hm0 : (0 : ℚ) ≤ 12 / 5 * (m : ℚ) := by positivity
    rw [show aiIter rolls ball (m + 1) (p, cd) =
        aiIter rolls ball m (aiStep (rolls m) ball p cd) from rfl,
      show aiStep (rolls m) ball p cd =
        ((aiStep (rolls m) ball p cd).1, (aiStep (rolls m) ball p cd).2) from rfl, hstep]
    push_cast at hlo hhi
    rcases lt_trichotomy p.position.x 748 with hc | hc | hc
    · rw [seekX_lo p.position.x hc]
      exact ih _ _ rfl rfl rfl hr (by push_cast; linarith) (by push_cast; linarith)
    · rw [hc, seekX_band 748 (le_refl _) (by norm_num)]
      exact ih _ _ rfl rfl rfl hr (by push_cast; linarith) (by push_cast; linarith)
    · rcases le_or_lt p.position.x 788 with hc2 | hc2
      · rw [seekX_band p.position.x (le_of_lt hc) hc2]
        exact ih _ _ rfl rfl rfl hr (by push_cast; linarith) (by push_cast; linarith)
      · rw [seekX_hi p.position.x hc2]
        exact ih _ _ rfl rfl rfl hr (by push_cast; linarith) (by push_cast; linarith)

/-- Ball used in the C9 amended witness: stationary on the left half. -/
def ballC9L : Ball := { ballG with position := ⟨300, 683⟩ }

/-- Ball used in the C9 counterexample: stationary on the AI's half. -/
def ballC9 : Ball := { ballG with position := ⟨700, 683⟩ }

/-- Player start for the C9 counterexample: 152.8 units from the ball. -/
def pC9 : Player := { restP2 with position := ⟨4264 / 5, 668⟩ }

/-- C9 (amended): when the ball is stationary on the LEFT half (so the
AI is not in approach mode), the AI converges within
seekSteps(x0) + 1 ticks to the midpoint of its half within the ±20
tolerance band, publishes zero horizontal velocity, and holds its
position there (any further tick leaves the position unchanged). -/
theorem c9_ai_seek_amended (rolls : ℕ → ℤ) (ball : Ball) (p0 : Player) (cd0 : ℕ)
    (hbx : ball.position.x < NET_X) (hbv : ball.velocity.x = 0)
    (hy : p0.position.y = GROUND_LEVEL - p0.radius) (hvy : p0.velocity.y = 0)
    (hr : p0.radius = PLAYER_RADIUS) :
    ∀ k : ℕ,
      |(aiIter rolls ball (seekSteps p0.position.x + k + 1) (p0, cd0)).1.position.x -
          (NET_X + (SCREEN_WIDTH - NET_X) / 2)| ≤ AI_POSITION_TOLERANCE ∧
        (aiIter rolls ball (seekSteps p0.position.x + k + 1) (p0, cd0)).1.velocity.x = 0 ∧
        ∀ r : ℤ,
          (aiStep r ball
              (aiIter rolls ball (seekSteps p0.position.x + k + 1) (p0, cd0)).1
              (aiIter rolls ball (seekSteps p0.position.x + k + 1) (p0, cd0)).2).1.position =
            (aiIter rolls ball (seekSteps p0.position.x + k + 1) (p0, cd0)).1.position := by
  intro k
  have hstep := aiStep_seek (rolls (seekSteps p0.position.x + k)) ball p0 cd0 hbx hbv hy hvy hr
  have hpeel : aiIter rolls ball (seekSteps p0.position.x + k + 1) (p0, cd0) =
      aiIter rolls ball (seekSteps p0.position.x + k)
        ((aiStep (rolls (seekSteps p0.position.x + k)) ball p0 cd0).1,
          (aiStep (rolls (seekSteps p0.position.x + k)) ball p0 cd0).2) := rfl
  rw [hpeel, hstep]
  have hsb := seekSteps_bound p0.position.x
  have hk0 : (0 : ℚ) ≤ 12 / 5 * (k : ℚ) := by positivity
  have hband := seek_iter_band rolls ball hbx hbv (seekSteps p0.position.x + k)
    { p0 with position := ⟨seekX p0.position.x, GROUND_LEVEL - p0.radius⟩,
              velocity := ⟨0, 0⟩, onGround := true }
    (aiStep (rolls (seekSteps p0.position.x + k)) ball p0 cd0).2
    rfl rfl rfl hr ?blo ?bhi
  case blo =>
    push_cast
    rcases lt_trichotomy p0.position.x 748 with hc | hc | hc
    · rw [seekX_lo p0.position.x hc]
      linarith [hsb.1]
    · rw [hc, seekX_band 748 (le_refl _) (by norm_num)]
      linarith
    · rcases le_or_lt p0.position.x 788 with hc2 | hc2
      · rw [seekX_band p0.position.x (le_of_lt hc) hc2]
        linarith
      · rw [seekX_hi p0.position.x hc2]
        linarith
  case bhi =>
    push_cast
    rcases lt_trichotomy p0.position.x 748 with hc | hc | hc
    · rw [seekX_lo p0.position.x hc]
      linarith
    · rw [hc, seekX_band 748 (le_refl _) (by norm_num)]
      linarith
    · rcases le_or_lt p0.position.x 788 with hc2 | hc2
      · rw [seekX_band p0.position.x (le_of_lt hc) hc2]
        linarith
      · rw [seekX_hi p0.position.x hc2]
        linarith [hsb.2]
  obtain ⟨hB1, hB2, hBvx, hBvy, hBy, hBr⟩ := hband
  refine ⟨?_, hBvx, ?_⟩
  · rw [abs_le]
    norm_num [NET_X, SCREEN_WIDTH, AI_POSITION_TOLERANCE]
    constructor <;> linarith
  · intro r
    rw [aiStep_seek r ball _ _ hbx hbv hBy hBvy hBr]
    dsimp only
    rw [seekX_band _ hB1 hB2, ← hBy]

/-- Horizontal approach dynamics of the AI when the ball is on its half:
one tick's net effect on the AI's x (80% move speed in the AI update plus
the published velocity integrated by the physics). -/
def approachX (bx x : ℚ) : ℚ :=
  if bx - x < -AI_POSITION_TOLERANCE then x - PLAYER_MOVE_SPEED * 0.8 * 2
  else if bx - x > AI_POSITION_TOLERANCE then x + PLAYER_MOVE_SPEED * 0.8 * 2
  else x

/-- Horizontal velocity the AI publishes in approach mode. -/
def approachVX (bx x : ℚ) : ℚ :=
  if bx - x < -AI_POSITION_TOLERANCE then -(PLAYER_MOVE_SPEED * 0.8)
  else if bx - x > AI_POSITION_TOLERANCE then PLAYER_MOVE_SPEED * 0.8
  else 0

/-- The direct position change made inside the AI update in approach mode. -/
def aiMoveX (bx x : ℚ) : ℚ :=
  if bx - x < -AI_POSITION_TOLERANCE then x - PLAYER_MOVE_SPEED * 0.8
  else if bx - x > AI_POSITION_TOLERANCE then x + PLAYER_MOVE_SPEED * 0.8
  else x

theorem aiMoveX_add (bx x : ℚ) :
    aiMoveX bx x + approachVX bx x = approachX bx x := by
  unfold aiMoveX approachVX approachX
  split_ifs <;> ring

/-- Player physics acting on a grounded player with zero vertical
velocity: x advances by the velocity, the player stays pinned to the
ground with vertical velocity zero. -/
theorem physPlayer_grounded (p : Player)
    (hy : p.position.y = GROUND_LEVEL - p.radius) (hvy : p.velocity.y = 0) :
    physPlayer p =
      { p with position := ⟨p.position.x + p.velocity.x, GROUND_LEVEL - p.radius⟩,
               velocity := ⟨p.velocity.x, 0⟩, onGround := true } := by
  unfold physPlayer vadd
  dsimp only
  rw [if_neg (show ¬ (p.velocity.y + PLAYER_GRAVITY > PLAYER_MAX_VELOCITY_Y) from
      by rw [hvy]; norm_num [PLAYER_GRAVITY, PLAYER_MAX_VELOCITY_Y])]
  rw [if_pos (show p.position.y + p.velocity.y + p.radius ≥ GROUND_LEVEL from
      by rw [hy, hvy]; linarith)]

/-- The AI update in approach mode (ball on the AI half, no jump roll):
moves 80% of move speed toward the ball, publishes the same horizontal
velocity, leaves everything else unchanged (clamps inactive in the given
x range). -/
theorem updateAI_approach (roll : ℤ) (ball : Ball) (p0 : Player) (cd0 : ℕ)
    (hb : ball.position.x ≥ NET_X) (hroll : roll ≤ 20)
    (hr : p0.radius = PLAYER_RADIUS)
    (hlo : 571 ≤ p0.position.x) (hhi : p0.position.x ≤ 970) :
    (updateAI roll ball p0 cd0).1 =
      { p0 with position := ⟨aiMoveX ball.position.x p0.position.x, p0.position.y⟩,
                velocity := ⟨approachVX ball.position.x p0.position.x, p0.velocity.y⟩ } := by
  have happ : (ball.velocity.x > 0 ∧ ball.position.x < NET_X) ∨
      ball.position.x ≥ NET_X := Or.inr hb
  have hjump : ∀ (C : Prop), ¬ (C ∧ roll > 20) :=
    fun C hc => absurd hc.2 (not_lt.mpr hroll)
  unfold updateAI
  dsimp only
  rw [if_neg (not_not_intro happ), if_neg (hjump _)]
  unfold aiMoveX approachVX
  by_cases h1 : ball.position.x - p0.position.x < -AI_POSITION_TOLERANCE
  · rw [if_pos h1]
    dsimp only
    rw [if_pos h1, if_pos h1]
    rw [if_neg (show ¬ (p0.position.x - PLAYER_MOVE_SPEED * 0.8 - p0.radius <
          NET_X + NET_WIDTH / 2) from by
        rw [hr]; norm_num [NET_X, NET_WIDTH, PLAYER_RADIUS, PLAYER_MOVE_SPEED]; linarith)]
    rw [if_neg (show ¬ (p0.position.x - PLAYER_MOVE_SPEED * 0.8 + p0.radius >
          SCREEN_WIDTH) from by
        rw [hr]; norm_num [SCREEN_WIDTH, PLAYER_RADIUS, PLAYER_MOVE_SPEED]; linarith)]
  · rw [if_neg h1]
    dsimp only
    rw [if_neg h1, if_neg h1]
    by_cases h2 : ball.position.x - p0.position.x > AI_POSITION_TOLERANCE
    · rw [if_pos h2]
      dsimp only
      rw [if_pos h2, if_pos h2]
      rw [if_neg (show ¬ (p0.position.x + PLAYER_MOVE_SPEED * 0.8 - p0.radius <
            NET_X + NET_WIDTH / 2) from by
          rw [hr]; norm_num [NET_X, NET_WIDTH, PLAYER_RADIUS, PLAYER_MOVE_SPEED]; linarith)]
      rw [if_neg (show ¬ (p0.position.x + PLAYER_MOVE_SPEED * 0.8 + p0.radius >
            SCREEN_WIDTH) from by
          rw [hr]; norm_num [SCREEN_WIDTH, PLAYER_RADIUS, PLAYER_MOVE_SPEED]; linarith)]
    · rw [if_neg h2]
      dsimp only
      rw [if_neg h2, if_neg h2]
      rw [if_neg (show ¬ (p0.position.x - p0.radius < NET_X + NET_WIDTH / 2) from by
          rw [hr]; norm_num [NET_X, NET_WIDTH, PLAYER_RADIUS]; linarith)]
      rw [if_neg (show ¬ (p0.position.x + p0.radius > SCREEN_WIDTH) from by
          rw [hr]; norm_num [SCREEN_WIDTH, PLAYER_RADIUS]; linarith)]

theorem aiStep_approach (roll : ℤ) (ball : Ball) (p : Player) (cd : ℕ)
    (hb : ball.position.x ≥ NET_X) (hroll : roll ≤ 20)
    (hy : p.position.y = GROUND_LEVEL - p.radius) (hvy : p.velocity.y = 0)
    (hr : p.radius = PLAYER_RADIUS)
    (hlo : 571 ≤ p.position.x) (hhi : p.position.x ≤ 970) :
    (aiStep roll ball p cd).1 =
      { p with position := ⟨approachX ball.position.x p.position.x, GROUND_LEVEL - p.radius⟩,
               velocity := ⟨approachVX ball.position.x p.position.x, 0⟩,
               onGround := true } := by
  unfold aiStep
  dsimp only
  rw [updateAI_approach roll ball p cd hb hroll hr hlo hhi]
  rw [physPlayer_grounded
    { p with position := ⟨aiMoveX ball.position.x p.position.x, p.position.y⟩,
             velocity := ⟨approachVX ball.position.x p.position.x, p.velocity.y⟩ }
    hy hvy]
  dsimp only
  rw [aiMoveX_add]

/-- Fuel-indexed convergence of the approach dynamics toward a ball
resting at x = 700: with enough ticks the AI ends in the band [680, 720]
around the ball and stays grounded. -/
theorem approach_iter (rolls : ℕ → ℤ) (ball : Ball)
    (hb : ball.position.x = 700) (hrolls : ∀ n, rolls n ≤ 20) :
    ∀ (n : ℕ) (p : Player) (cd : ℕ),
      p.position.y = GROUND_LEVEL - p.radius → p.velocity.y = 0 →
      p.radius = PLAYER_RADIUS →
      680 ≤ p.position.x → p.position.x ≤ 970 →
      p.position.x - 720 ≤ 32 / 5 * (n : ℚ) →
      680 ≤ (aiIter rolls ball n (p, cd)).1.position.x ∧
        (aiIter rolls ball n (p, cd)).1.position.x ≤ 720 ∧
        (aiIter rolls ball n (p, cd)).1.position.y =
          GROUND_LEVEL - (aiIter rolls ball n (p, cd)).1.radius ∧
        (aiIter rolls ball n (p, cd)).1.velocity.y = 0 ∧
        (aiIter rolls ball n (p, cd)).1.radius = PLAYER_RADIUS := by
  intro n
  induction n with
  | zero =>
    intro p cd hy hvy hr hlo hhi hfuel
    rw [show aiIter rolls ball 0 (p, cd) = (p, cd) from rfl]
    push_cast at hfuel
    exact ⟨hlo, by linarith, hy, hvy, hr⟩
  | succ m ih =>
    intro p cd hy hvy hr hlo hhi hfuel
    have hm : (0 : ℚ) ≤ (m : ℚ) := Nat.cast_nonneg m
    push_cast at hfuel
    have hstep := aiStep_approach (rolls m) ball p cd
      (by rw [hb]; norm_num [NET_X]) (hrolls m) hy hvy hr (by linarith) hhi
    rw [show aiIter rolls ball (m + 1) (p, cd) =
        aiIter rolls ball m (aiStep (rolls m) ball p cd) from rfl,
      show aiStep (rolls m) ball p cd =
        ((aiStep (rolls m) ball p cd).1, (aiStep (rolls m) ball p cd).2) from rfl,
      hstep]
    exact ih _ _ rfl rfl hr
      (by show 680 ≤ approachX ball.position.x p.position.x
          rw [hb]
          unfold approachX
          norm_num [AI_POSITION_TOLERANCE, PLAYER_MOVE_SPEED]
          split_ifs <;> linarith)
      (by show approachX ball.position.x p.position.x ≤ 970
          rw [hb]
          unfold approachX
          norm_num [AI_POSITION_TOLERANCE, PLAYER_MOVE_SPEED]
          split_ifs <;> linarith)
      (by show approachX ball.position.x p.position.x - 720 ≤ 32 / 5 * (m : ℚ)
          rw [hb]
          unfold approachX
          norm_num [AI_POSITION_TOLERANCE, PLAYER_MOVE_SPEED]
          split_ifs <;> linarith)

/-- Counterexample to C9 as stated: the ball is stationary and 152.8 >
150 units away from the AI player, yet it rests on the AI half of the
court (x = 700 ≥ NET_X), so the AI is in approach mode, not seek mode:
after 25 ticks the AI sits within 20 units of the ball (x ≤ 720), which
is at least 48 units from the midpoint 768 — outside the ±20 tolerance
band — and a further tick does not move it; it never converges to the
midpoint of its half. -/
theorem c9_counterexample :
    ballC9.velocity.x = 0 ∧ ballC9.velocity.y = 0 ∧
      AI_REACTION_DISTANCE < |pC9.position.x - ballC9.position.x| ∧
      ¬ (|(aiIter (fun _ => 0) ballC9 25 (pC9, 0)).1.position.x -
          (NET_X + (SCREEN_WIDTH - NET_X) / 2)| ≤ AI_POSITION_TOLERANCE) ∧
      (aiStep 0 ballC9 (aiIter (fun _ => 0) ballC9 25 (pC9, 0)).1
          (aiIter (fun _ => 0) ballC9 25 (pC9, 0)).2).1.position.x =
        (aiIter (fun _ => 0) ballC9 25 (pC9, 0)).1.position.x := by
  have hbx : ballC9.position.x = 700 := by norm_num [ballC9, ballG]
  have hiter := approach_iter (fun _ => 0) ballC9 hbx
    (fun _ => by show (0 : ℤ) ≤ 20; omega) 25 pC9 0
    (by norm_num [pC9, restP2, GROUND_LEVEL, SCREEN_HEIGHT, PLAYER_RADIUS])
    (by norm_num [pC9, restP2])
    (by norm_num [pC9, restP2, PLAYER_RADIUS])
    (by norm_num [pC9, restP2])
    (by norm_num [pC9, restP2])
    (by push_cast; norm_num [pC9, restP2])
  obtain ⟨hA1, hA2, hAy, hAvy, hAr⟩ := hiter
  refine ⟨rfl, rfl, ?_, ?_, ?_⟩
  · rw [show pC9.position.x - ballC9.position.x = 764 / 5 from
      by norm_num [pC9, restP2, ballC9, ballG]]
    rw [abs_of_pos (by norm_num)]
    norm_num [AI_REACTION_DISTANCE]
  · rw [abs_le, not_and_or]
    left
    rw [not_le, show NET_X + (SCREEN_WIDTH - NET_X) / 2 = 768 from
      by norm_num [NET_X, SCREEN_WIDTH]]
    norm_num [AI_POSITION_TOLERANCE]
    linarith
  · have hstep := aiStep_approach 0 ballC9
      (aiIter (fun _ => 0) ballC9 25 (pC9, 0)).1
      (aiIter (fun _ => 0) ballC9 25 (pC9, 0)).2
      (by rw [hbx]; norm_num [NET_X]) (by omega)
      (by rw [hAy, hAr]) hAvy hAr (by linarith) (by linarith)
    rw [hstep]
    show approachX ballC9.position.x _ = _
    rw [hbx]
    unfold approachX
    norm_num [AI_POSITION_TOLERANCE]
    split_ifs <;> linarith

/-- Witness for C9 (amended): ball stationary at (300, 683) on the left
half, AI starting from its spawn; after seekSteps + 1 ticks it is inside
the band with zero horizontal velocity and holds. -/
theorem c9_ai_seek_amended_witness :
    |(aiIter (fun _ => 0) ballC9L (seekSteps restP2.position.x + 0 + 1)
        (restP2, 0)).1.position.x - (NET_X + (SCREEN_WIDTH - NET_X) / 2)| ≤
      AI_POSITION_TOLERANCE ∧
    (aiIter (fun _ => 0) ballC9L (seekSteps restP2.position.x + 0 + 1)
        (restP2, 0)).1.velocity.x = 0 ∧
    (aiStep 0 ballC9L
        (aiIter (fun _ => 0) ballC9L (seekSteps restP2.position.x + 0 + 1)
          (restP2, 0)).1
        (aiIter (fun _ => 0) ballC9L (seekSteps restP2.position.x + 0 + 1)
          (restP2, 0)).2).1.position =
      (aiIter (fun _ => 0) ballC9L (seekSteps restP2.position.x + 0 + 1)
        (restP2, 0)).1.position := by
  have h := c9_ai_seek_amended (fun _ => 0) ballC9L restP2 0
    (by norm_num [ballC9L, ballG, NET_X]) rfl
    (by norm_num [restP2, GROUND_LEVEL, SCREEN_HEIGHT, PLAYER_RADIUS]) rfl rfl 0
  exact ⟨h.1, h.2.1, h.2.2 0⟩

/-! ### Claim C6 -/

/-- A delay tick: while the post-score delay has at least 2 frames left,
one frame preserves scores, serve and game state and decrements the
timer by one. -/
theorem delayTick_facts (env : Env) (inp : Input) (s : GState)
    (hg : s.gameState = GameSt.PLAYING) (hp : s.pause = false)
    (hkP : inp.keyP = false) (hkE : inp.keyEsc = false)
    (ht : 2 ≤ s.scoreDelayTimer) :
    (updateGame env inp s).player1.score = s.player1.score ∧
      (updateGame env inp s).player2.score = s.player2.score ∧
      (updateGame env inp s).servingSide = s.servingSide ∧
      (updateGame env inp s).scoreDelayTimer = s.scoreDelayTimer - 1 ∧
      (updateGame env inp s).gameState = GameSt.PLAYING ∧
      (updateGame env inp s).pause = false := by
  rw [updateGame_playing env inp s hg hp hkP hkE]
  unfold playingTick
  have hT : (tickBeforeGround env inp (bumpFrames s)).scoreDelayTimer =
      s.scoreDelayTimer - 1 := by
    unfold tickBeforeGround
    have hP := tickToDelay_timer_pred env inp (bumpFrames s)
      (show 2 ≤ (bumpFrames s).scoreDelayTimer from ht)
    simp only [(stepCollide2_keeps _ _).2.2.1, (stepCollide1_keeps _ _).2.2.1,
      (stepNet_keeps _).2.2.1, (stepCeiling_keeps _).2.2.1,
      (stepWalls_keeps _).2.2.1, (stepBallIntegrate_keeps _).2.2.1, hP]
    rfl
  have hne : (tickBeforeGround env inp (bumpFrames s)).scoreDelayTimer ≠ 0 := by
    rw [hT]; omega
  have hgr := stepGround_timer_ne env _ hne
  have hgk := stepGround_keeps env (tickBeforeGround env inp (bumpFrames s))
  have htf := tickBeforeGround_facts env inp (bumpFrames s)
  refine ⟨?_, ?_, ?_, ?_, ?_, ?_⟩
  · rw [hgr.1, htf.1]
    rfl
  · rw [hgr.2.1, htf.2.1]
    rfl
  · rw [hgr.2.2.1, htf.2.2.1]
    rfl
  · rw [hgr.2.2.2.2, hT]
  · rw [hgr.2.2.2.1, htf.2.2.2.1]
    exact hg
  · rw [hgk.2.2.2.2.1, htf.2.2.2.2.2]
    exact hp

/-- C6: starting from a two-player PLAYING state with scores (0, 0) and
no active delay, if the tick's ground stage finds the ball touching the
ground left of the net centerline, then after that tick the scores are
(0, 1) with serve RIGHT and the 120-frame delay armed; through the next
119 frames the delay counts down with scores, serve and state unchanged;
and in the 120th frame after the score the delay handler resets the ball
to the right spawn x (SCREEN_WIDTH * 3/4) with zero velocity, zero trail
count and zero rotation. -/
theorem c6_serve_reset (envs : ℕ → Env) (inps : ℕ → Input) (s : GState)
    (hg : s.gameState = GameSt.PLAYING) (hp : s.pause = false)
    (hm : s.gameMode = Mode.TWO_PLAYER)
    (hkP : ∀ n, (inps n).keyP = false) (hkE : ∀ n, (inps n).keyEsc = false)
    (hs1 : s.player1.score = 0) (hs2 : s.player2.score = 0)
    (ht : s.scoreDelayTimer = 0)
    (hGy : GROUND_LEVEL ≤ (tickBeforeGround (envs 0) (inps 0) (bumpFrames s)).ball.position.y +
      (tickBeforeGround (envs 0) (inps 0) (bumpFrames s)).ball.radius)
    (hGx : (tickBeforeGround (envs 0) (inps 0) (bumpFrames s)).ball.position.x < NET_X) :
    (traceFrom envs inps s 1).player1.score = 0 ∧
      (traceFrom envs inps s 1).player2.score = 1 ∧
      (traceFrom envs inps s 1).servingSide = Side.RIGHT ∧
      (traceFrom envs inps s 1).scoreDelayTimer = SCORE_DELAY_FRAMES ∧
      (∀ j, 1 ≤ j → j ≤ 120 →
        (traceFrom envs inps s j).player1.score = 0 ∧
          (traceFrom envs inps s j).player2.score = 1 ∧
          (traceFrom envs inps s j).servingSide = Side.RIGHT ∧
          (traceFrom envs inps s j).scoreDelayTimer = 121 - j) ∧
      (tickToDelay (envs 120) (inps 120) (traceFrom envs inps s 120)).ball.position =
        (⟨SCREEN_WIDTH * 3 / 4, 100⟩ : V2) ∧
      (tickToDelay (envs 120) (inps 120) (traceFrom envs inps s 120)).ball.velocity =
        (⟨0, 0⟩ : V2) ∧
      (tickToDelay (envs 120) (inps 120) (traceFrom envs inps s 120)).ball.trailCount = 0 ∧
      (tickToDelay (envs 120) (inps 120) (traceFrom envs inps s 120)).ball.rotation = 0 := by
  have key : ∀ k, k ≤ 119 →
      (traceFrom envs inps s (1 + k)).player1.score = 0 ∧
        (traceFrom envs inps s (1 + k)).player2.score = 1 ∧
        (traceFrom envs inps s (1 + k)).servingSide = Side.RIGHT ∧
        (traceFrom envs inps s (1 + k)).scoreDelayTimer = 120 - k ∧
        (traceFrom envs inps s (1 + k)).gameState = GameSt.PLAYING ∧
        (traceFrom envs inps s (1 + k)).pause = false := by
    intro k
    induction k with
    | zero =>
      intro _
      rw [show traceFrom envs inps s (1 + 0) = updateGame (envs 0) (inps 0) s from rfl,
        updateGame_playing (envs 0) (inps 0) s hg hp (hkP 0) (hkE 0)]
      unfold playingTick
      have ht0 : (tickBeforeGround (envs 0) (inps 0) (bumpFrames s)).scoreDelayTimer = 0 :=
        tickBeforeGround_timer0 (envs 0) (inps 0) (bumpFrames s)
          (show (bumpFrames s).scoreDelayTimer = 0 from ht)
      have htf := tickBeforeGround_facts (envs 0) (inps 0) (bumpFrames s)
      have hsc1 : (tickBeforeGround (envs 0) (inps 0) (bumpFrames s)).player1.score = 0 := by
        rw [htf.1]; exact hs1
      have hsc2 : (tickBeforeGround (envs 0) (inps 0) (bumpFrames s)).player2.score = 0 := by
        rw [htf.2.1]; exact hs2
      have hsL := stepGround_score_left (envs 0) _ hGy ht0 hGx
      have hgk := stepGround_keeps (envs 0) (tickBeforeGround (envs 0) (inps 0) (bumpFrames s))
      have hns := hsL.2.2.2.1 (by rw [hsc1]; norm_num [WIN_SCORE])
        (by rw [hsc2]; norm_num [WIN_SCORE])
      refine ⟨?_, ?_, hsL.2.2.1, ?_, ?_, ?_⟩
      · rw [hsL.2.1, hsc1]
      · rw [hsL.1, hsc2]
      · rw [hns.2]
        norm_num [SCORE_DELAY_FRAMES]
      · rw [hns.1, htf.2.2.2.1]
        exact hg
      · rw [hgk.2.2.2.2.1, htf.2.2.2.2.2]
        exact hp
    | succ m ih =>
      intro hm119
      have hprev := ih (by omega)
      have hstep := delayTick_facts (envs (1 + m)) (inps (1 + m))
        (traceFrom envs inps s (1 + m)) hprev.2.2.2.2.1 hprev.2.2.2.2.2
        (hkP (1 + m)) (hkE (1 + m)) (by rw [hprev.2.2.2.1]; omega)
      rw [show traceFrom envs inps s (1 + (m + 1)) =
        updateGame (envs (1 + m)) (inps (1 + m)) (traceFrom envs inps s (1 + m)) from rfl]
      refine ⟨?_, ?_, ?_, ?_, hstep.2.2.2.2.1, hstep.2.2.2.2.2⟩
      · rw [hstep.1, hprev.1]
      · rw [hstep.2.1, hprev.2.1]
      · rw [hstep.2.2.1, hprev.2.2.1]
      · rw [hstep.2.2.2.1, hprev.2.2.2.1]
        omega
  have h0 := key 0 (by omega)
  have h119 := key 119 (by omega)
  rw [show (1 + 119 : ℕ) = 120 from by norm_num] at h119
  have htmr : (traceFrom envs inps s 120).scoreDelayTimer = 1 := by
    rw [h119.2.2.2.1]
  have hXt : (stepPlayerPhysics (stepAI (envs 120) (stepControls (inps 120)
      (stepTimerParticles (traceFrom envs inps s 120))))).scoreDelayTimer = 1 := by
    simp [htmr]
  have hXs : (stepPlayerPhysics (stepAI (envs 120) (stepControls (inps 120)
      (stepTimerParticles (traceFrom envs inps s 120))))).servingSide = Side.RIGHT := by
    simp [h119.2.2.1]
  have hreset : (tickToDelay (envs 120) (inps 120) (traceFrom envs inps s 120)).ball =
      resetBall Side.RIGHT (stepPlayerPhysics (stepAI (envs 120) (stepControls (inps 120)
        (stepTimerParticles (traceFrom envs inps s 120))))).ball := by
    unfold tickToDelay stepDelay
    dsimp only
    rw [hXt, hXs, if_pos (show (1 : ℕ) > 0 by omega),
      if_pos (show (1 : ℕ) - 1 = 0 by omega)]
  refine ⟨h0.1, h0.2.1, h0.2.2.1,
    by rw [h0.2.2.2.1]; norm_num [SCORE_DELAY_FRAMES], ?_, ?_, ?_, ?_, ?_⟩
  · intro j hj1 hj2
    obtain ⟨k, rfl⟩ : ∃ k, j = 1 + k := ⟨j - 1, by omega⟩
    have hk := key k (by omega)
    exact ⟨hk.1, hk.2.1, hk.2.2.1, by rw [hk.2.2.2.1]; omega⟩
  · rw [hreset]
    unfold resetBall
    dsimp only
    rw [if_neg (by simp)]
  · rw [hreset]
    rfl
  · rw [hreset]
    rfl
  · rw [hreset]
    rfl

set_option maxRecDepth 8192 in
/-- Witness for C6: from `baseS` with no keys pressed and the degenerate
environment, the first tick scores (0, 1) with serve RIGHT; at frame 120
the delay stands at 1 and that frame's delay handler resets the ball to
x = 768 with zero velocity, trail count and rotation. -/
theorem c6_serve_reset_witness :
    (traceFrom (fun _ => env0) (fun _ => inp0) baseS 1).player1.score = 0 ∧
      (traceFrom (fun _ => env0) (fun _ => inp0) baseS 1).player2.score = 1 ∧
      (traceFrom (fun _ => env0) (fun _ => inp0) baseS 1).servingSide = Side.RIGHT ∧
      (traceFrom (fun _ => env0) (fun _ => inp0) baseS 120).scoreDelayTimer = 1 ∧
      (tickToDelay env0 inp0
          (traceFrom (fun _ => env0) (fun _ => inp0) baseS 120)).ball.position =
        (⟨SCREEN_WIDTH * 3 / 4, 100⟩ : V2) ∧
      (tickToDelay env0 inp0
          (traceFrom (fun _ => env0) (fun _ => inp0) baseS 120)).ball.velocity =
        (⟨0, 0⟩ : V2) ∧
      (tickToDelay env0 inp0
          (traceFrom (fun _ => env0) (fun _ => inp0) baseS 120)).ball.trailCount = 0 ∧
      (tickToDelay env0 inp0
          (traceFrom (fun _ => env0) (fun _ => inp0) baseS 120)).ball.rotation = 0 := by
  have h := c6_serve_reset (fun _ => env0) (fun _ => inp0) baseS rfl rfl rfl
    (fun _ => rfl) (fun _ => rfl) rfl rfl rfl c2eval.1 c2eval.2
  exact ⟨h.1, h.2.1, h.2.2.1,
    by rw [(h.2.2.2.2.1 120 (by norm_num) (by norm_num)).2.2.2],
    h.2.2.2.2.2.1, h.2.2.2.2.2.2.1, h.2.2.2.2.2.2.2.1, h.2.2.2.2.2.2.2.2⟩

end CVolley
